import Mathlib

/-!
Verification of the prompt-construction module `gpt_researcher/prompts.py`.

The module is embedded shallowly: every prompt generator becomes a Lean function on
strings (python `str` is Lean `String`), the two dispatch tables become association
lists, and the only ambient observation of a generator (the current date) becomes an
explicit `today` argument.  Warnings emitted by the two resolution functions are
returned as a list of message strings, and the fallback construction path of
`get_prompt_family` (which calls the `PromptFamily` class with no argument although
`__init__` requires one) is modelled with an `Except` result whose error value stands
for the python `TypeError`.
-/

set_option maxRecDepth 8000

/-- Python `str`. -/
abbrev Str := String

/-! ## Substring containment -/

/-- Python `pat in s` — `pat` occurs as a contiguous substring of `s`. -/
def sContains (s pat : Str) : Prop := pat.data <:+: s.data

instance (s pat : Str) : Decidable (sContains s pat) :=
  List.decidableInfix pat.data s.data

/-- No split of `p` straddles the boundary between `a` and `b`: no nonempty proper
prefix of `p` ends `a` while the matching remainder starts `b`. -/
def noStraddle (p a b : List Char) : Prop :=
  ∀ i < p.length, 0 < i → ¬ (p.take i <:+ a ∧ p.drop i <+: b)

instance (p a b : List Char) : Decidable (noStraddle p a b) := by
  unfold noStraddle; infer_instance

/-! ## Markdown heading scanner

`scan` walks the characters of a prompt and returns `true` exactly when some line
begins with a single `#` that is followed by a character other than `#` — a Markdown
top-level heading.  The state records whether the walk is at a line start (`start`),
inside a line (`mid`), or just behind a `#` that opened a line (`hash`). -/

inductive ScanSt
  | mid
  | start
  | hash
  deriving DecidableEq

def scan : ScanSt → List Char → Bool
  | _, [] => false
  | .hash, c :: cs => if c = '\n' then scan .start cs else if c = '#' then scan .mid cs else true
  | .start, c :: cs => if c = '\n' then scan .start cs else if c = '#' then scan .hash cs else scan .mid cs
  | .mid, c :: cs => if c = '\n' then scan .start cs else scan .mid cs

/-- `true` iff the string has a line beginning with a single `#` followed by a
character other than `#`. -/
def hasTopLevelHeading (s : Str) : Bool := scan .start s.data

/-- The scanner state after walking a `#`-free piece of text. -/
def stateAfter : List Char → ScanSt → ScanSt
  | [], st => st
  | c :: cs, _ => stateAfter cs (if c = '\n' then .start else .mid)

/-! ## `#`-free strings -/

/-- The string contains no `#` character. -/
abbrev noHash (s : Str) : Prop := '#' ∉ s.data

/-! ## Enumerations and configuration

The module imports `ReportSource`, `ReportType`, `Tone` and `PromptFamily` (the enum)
from `gpt_researcher/utils/enum.py` and `Config` from `gpt_researcher/config`, which
are not part of the sources under verification; their observable string values are
modelled from the spec. -/

/-- Modelled from the spec: `ReportSource.Web.value` — the report-source identifier
for web-sourced material (spec sections 3 and 6). -/
def ReportSource_Web : Str := "web"

/-- Modelled from the spec: `ReportSource.Documents.value` — the report-source
identifier for locally supplied documents (spec sections 3 and 6). -/
def ReportSource_Documents : Str := "documents"

/-- Modelled from the spec: `ReportType.ResearchReport.value` (spec section 6). -/
def ReportType_ResearchReport : Str := "research_report"

/-- Modelled from the spec: `ReportType.ResourceReport.value` (spec section 6). -/
def ReportType_ResourceReport : Str := "resource_report"

/-- Modelled from the spec: `ReportType.OutlineReport.value` (spec section 6). -/
def ReportType_OutlineReport : Str := "outline_report"

/-- Modelled from the spec: `ReportType.CustomReport.value` (spec section 6). -/
def ReportType_CustomReport : Str := "custom_report"

/-- Modelled from the spec: `ReportType.SubtopicReport.value` (spec section 6). -/
def ReportType_SubtopicReport : Str := "subtopic_report"

/-- Modelled from the spec: `ReportType.DeepResearch.value` (spec section 6). -/
def ReportType_DeepResearch : Str := "deep_research"

/-- Modelled from the spec: the canonical default prompt-family name,
`PromptFamilyEnum.Default.value` (spec sections 4.6 and 8). -/
def PromptFamilyEnum_Default : Str := "default"

/-- Modelled from the spec: `Tone` is a closed enumeration whose members carry a
`.value` string; the generators only observe that string (spec section 3). -/
structure Tone where
  value : Str
  deriving DecidableEq

/-- Modelled from the spec: the configuration object handed to a prompt family on
construction.  The base family stores it without inspecting it, so it is a bare
marker type here. -/
structure Config where
  deriving DecidableEq

/-! ## Python-level helpers used by the generators -/

/-- The `tone_prompt` expression of `generate_report_prompt` (line 244) and
`generate_deep_research_prompt` (line 503):
`f"Write the report in a {tone.value} tone." if tone else ""`. -/
def tonePrompt : Option Tone → Str
  | some t => "Write the report in a " ++ t.value ++ " tone."
  | none => ""

/-- Python `str.upper()`, modelled characterwise. -/
def pyUpper (s : Str) : Str := ⟨s.data.map Char.toUpper⟩

/-- Python `repr` of a string as used by `str(list)`; the quoting is modelled, the
escaping of special characters inside the element is not. -/
def pyReprStr (s : Str) : Str := "\x27" ++ s ++ "\x27"

/-- Python `str()` of a list of strings, as an f-string interpolates it
(e.g. `['a', 'b']`). -/
def pyStrList (xs : List Str) : Str :=
  "[" ++ String.intercalate ", " (xs.map pyReprStr) ++ "]"

/-- An element of `selected_tools` in `generate_mcp_research_prompt`: either an
object exposing a `name` attribute, or anything else, displayed via `str()`
(prompts.py lines 97-103). -/
inductive McpTool
  | named (name : Str)
  | other (display : Str)
  deriving DecidableEq

/-- `tool.name if hasattr(tool, 'name') else str(tool)` (prompts.py lines 100-103). -/
def toolDisplayName : McpTool → Str
  | .named n => n
  | .other d => d

/-- A scalar JSON value inside a tool-metadata dictionary. -/
inductive JValue
  | str (s : Str)
  | num (n : Int)
  | bool (b : Bool)
  | null
  deriving DecidableEq

/-- One entry of `tools_info`: a tool-metadata dictionary with scalar values. -/
abbrev McpToolInfo := List (Str × JValue)

/-- JSON string escaping (quote, backslash and newline). -/
def jEscape (s : Str) : Str :=
  ⟨s.data.foldr (fun c acc =>
    if c = '"' then '\\' :: '"' :: acc
    else if c = '\\' then '\\' :: '\\' :: acc
    else if c = '\n' then '\\' :: 'n' :: acc
    else c :: acc) []⟩

def jValueDumps : JValue → Str
  | .str s => "\"" ++ jEscape s ++ "\""
  | .num n => n.repr
  | .bool true => "true"
  | .bool false => "false"
  | .null => "null"

def jFieldDumps (f : Str × JValue) : Str :=
  "    \"" ++ jEscape f.1 ++ "\": " ++ jValueDumps f.2

def jToolDumps (t : McpToolInfo) : Str :=
  if t.isEmpty then "  \x7b\x7d"
  else "  \x7b\n" ++ String.intercalate ",\n" (t.map jFieldDumps) ++ "\n  \x7d"

/-- Models `json.dumps(tools_info, indent=2)` for a list of flat tool-metadata
dictionaries (prompts.py line 59). -/
def jsonDumpsTools (ts : List McpToolInfo) : Str :=
  if ts.isEmpty then "[]"
  else "[\n" ++ String.intercalate ",\n" (ts.map jToolDumps) ++ "\n]"

def mcpSel0 : Str :=
    "You are a research assistant helping to select the most relevant tools for a research query.\n\nRESEARCH QUERY: \""

def mcpSel1 : Str :=
    " relevant for researching the given query.\n\nSELECTION CRITERIA:\n- Choose tools that can provide information, data, or insights related to the query\n- Prioritize tools that can search, retrieve, or access relevant content\n- Consider tools that complement each other (e.g., different data sources)\n- Exclude tools that are clearly unrelated to the research topic\n\nReturn a JSON object with this exact format:\n\x7b\n  \"selected_tools\": [\n    \x7b\n      \"index\": 0,\n"

def mcpSel2 : Str :=
    "      \"name\": \"tool_name\",\n      \"relevance_score\": 9,\n      \"reason\": \"Detailed explanation of why this tool is relevant\"\n    \x7d\n  ],\n  \"selection_reasoning\": \"Overall explanation of the selection strategy\"\n\x7d\n\nSelect exactly "

def mcpSel3 : Str :=
    " tools, ranked by relevance to the research query.\n"

/-- Source: `generate_mcp_tool_selection_prompt(query, tools_info, max_tools=3)`. -/
def PromptFamily.generate_mcp_tool_selection_prompt (query : Str) (tools_info : List McpToolInfo) (max_tools : Nat) : Str :=
    mcpSel0 ++
    query ++
    "\"\n\nAVAILABLE TOOLS:\n" ++
    jsonDumpsTools tools_info ++
    "\n\nTASK: Analyze the tools and " ++
    "select " ++
    "EXACTLY " ++
    Nat.repr max_tools ++
    " tools" ++
    " that are most" ++
    mcpSel1 ++
    mcpSel2 ++
    Nat.repr max_tools ++
    mcpSel3

def mcpRes0 : Str :=
    "You are a research assistant with access to specialized tools. Your task is to research the following query and provide comprehensive, accurate information.\n\nRESEARCH QUERY: \""

def mcpRes1 : Str :=
    "\"\n\nINSTRUCTIONS:\n1. Use the available tools to gather relevant information about the query\n2. Call multiple tools if needed to get comprehensive coverage\n3. If a tool call fails or returns empty results, try alternative approaches\n4. Synthesize information from multiple sources when possible\n5. Focus on factual, relevant information that directly addresses the query\n\nAVAILABLE TOOLS: "

def mcpRes2 : Str :=
    "\n\nPlease conduct thorough research and provide your findings. Use the tools strategically to gather the most relevant and comprehensive information."

/-- Source: `generate_mcp_research_prompt(query, selected_tools)`; the loop over
`selected_tools` taking `tool.name` when present else `str(tool)` is `toolDisplayName`,
and the f-string rendering of the resulting python list is `pyStrList`. -/
def PromptFamily.generate_mcp_research_prompt (query : Str) (selected_tools : List McpTool) : Str :=
    mcpRes0 ++
    query ++
    mcpRes1 ++
    pyStrList (selected_tools.map toolDisplayName) ++
    mcpRes2

/-- The directive requiring hyperlinked url references (prompts.py line 234). -/
def urlDirective : Str :=
    "Every url should be hyperlinked: [url website](url)"

/-- The directive forbidding duplicated source references (part of prompts.py lines 233/241). -/
def dedupDirective : Str :=
    "make sure to not add duplicated sources, but only one reference for each."

/-- The directive requiring deduplicated source document-name references (prompts.py line 241). -/
def docNamesDirective : Str :=
    "You MUST write all used source document names at the end of the report as references, and " ++ dedupDirective

/-- `reference_prompt` for `report_source == "web"` in `generate_report_prompt` (lines 232-238)
and `generate_deep_research_prompt` (lines 491-497); the two literals are identical. -/
def webReferencePrompt : Str :=
    "\nYou MUST write all used source urls at the end of the report as references, and " ++
    dedupDirective ++
    "\n" ++
    urlDirective ++
    "\nAdditionally, you MUST include hyperlinks to the relevant URLs wherever they are referenced in the report:\n\neg: Author, A. A. (Year, Month Date). Title of web page. Website Name. [url website](url)\n"

/-- `reference_prompt` for the non-web branch in `generate_report_prompt` (lines 240-242)
and `generate_deep_research_prompt` (lines 499-501); note the stray `"` before the newline. -/
def docReferencePrompt : Str :=
    "\n" ++ docNamesDirective ++ "\"\n"

/-- `reference_prompt` for `report_source == "web"` in `generate_resource_report_prompt`
(lines 418-421, including the source indentation). -/
def resourceWebReferencePrompt : Str :=
    "\n            You MUST include all relevant source urls.\n            " ++
    urlDirective ++
    "\n            "

/-- `reference_prompt` for the non-web branch in `generate_resource_report_prompt`
(lines 423-425, including the source indentation and the stray `"`). -/
def resourceDocReferencePrompt : Str :=
    "\n            " ++ docNamesDirective ++ "\"\n        "

def rpt0 : Str :=
    "\"\n---\nYou are a senior retail real estate acquisitions analyst following the rigorous methodology of a net lease REIT acquisition manager. Using the above information, generate a comprehensive acquisition due diligence report for: \""

def rpt1 : Str :=
    "\"\n\nThe report should provide a thorough analysis for evaluating this retail location acquisition opportunity. It must be well-structured, data-driven, and comprehensive, with at least "

def rpt2 : Str :=
    " words.\n\nREQUIRED REPORT STRUCTURE - Organize findings into these key sections:\n\n## Executive Summary\nBrief overview of the tenant, location, asset quality, and acquisition recommendation with key highlights\n\n## Tenant Analysis\n- Company financial health and credit ratings (investment grade preferred)\n- Brand strength and consumer trends (top-performing brands, household penetration)\n- Recent corporate developments (CEO changes, restructuring, expansions/closures)\n"

def rpt3 : Str :=
    "- Store performance and growth strategy\n- Lease renewal rates and tenant stability indicators\n- Historical performance and growth trajectory\n\n## Location Quality and Market Analysis (CRITICAL - Highest Priority)\n- Detailed demographics: population, household income, age distribution\n- Walkability and livability scores (community engagement factors)\n- Crime rates and neighborhood safety\n- Retail demand drivers: foot traffic, nearby anchors, accessibility\n"

def rpt4 : Str :=
    "- Market lease rates and comparisons (cite IPA Commercial, Boulder Group when available)\n- Cap rate trends and market context (note recent movements)\n- Competitive positioning: visibility, accessibility, parking\n- Residential development activity: new multifamily projects, breaking ground, permits\n- Neighborhood characteristics and quality indicators\n- Population growth trends and projections\n\n## Lease Structure and Terms\n"

def rpt5 : Str :=
    "- Lease type: NNN (Net Lease), FSG (Full Service Gross), or Modified Gross\n- Lease duration and renewal options\n- Rent escalations and terms\n- Expense pass-throughs\n- Below-market rent potential for upside\n- Comparison to market lease comps\n\n## Asset Quality and ESG Considerations\n- Building class (A, B, or C)\n- Age and condition of the property\n- Physical obsolescence or recent renovations\n- ESG certifications: LEED, WELL, or GRESB ratings\n"

def rpt6 : Str :=
    "- Energy efficiency and sustainability features\n- ESG lease clauses (energy, water, waste management)\n- Long-term asset value enhancement potential\n\n## Economic Analysis\n- Local employment indicators and job market\n- Economic health of the area\n- Business activity and commercial development\n- Consumer spending patterns by income segment (high-income vs. low-income households)\n\n## Competitive Landscape\n- Nearby competitors in the same retail category\n"

def rpt7 : Str :=
    "- Market saturation analysis\n- Competitive advantages/disadvantages of the location\n- Similar tenants in the area\n\n## Sector & Industry Trends\n- Retail sector performance and trends (cite Numerator, industry publications when available)\n- Category-specific dynamics\n- Consumer behavior trends (experiential, community-based retail)\n- Industry challenges and opportunities\n- Relevant sector news affecting the tenant type\n\n## Development & Zoning\n"

def rpt8 : Str :=
    "- New construction and development projects\n- Zoning changes or planning updates\n- Infrastructure improvements\n- Grand openings of complementary businesses\n\n## Macro-Economic and Market Risk Assessment\n- Interest rate environment and cap rate impacts\n- Federal Reserve policy trends\n- Consumer sentiment and retail sector health\n- High-income vs. low-income segment performance\n- Supply/demand balance in the market\n\n## Risk Assessment\n- Key risks identified from the research\n"

def rpt9 : Str :=
    "- Mitigation strategies\n- Red flags or concerns\n- Demographic and economic headwinds\n\n## Scoring and Investment Analysis\nPresent a weighted scoring breakdown (use table format):\n- Tenant credit and performance (30% weight)\n- Location quality and market dynamics (30% weight)\n- Asset quality and ESG compliance (20% weight)\n- Lease structure and terms (10% weight)\n- Macro-economic risk (10% weight)\n\n## Acquisition Recommendation\n"

def rpt10 : Str :=
    "- Clear recommendation (proceed/reconsider/decline)\n- Key supporting factors based on scoring\n- Projected returns and alignment with portfolio strategy\n- Conditions or caveats\n- Risk mitigation strategies for proceeding\n\nPlease follow all of the following guidelines:\n- You MUST determine a concrete acquisition recommendation based on the data. Do NOT provide vague conclusions.\n- You MUST write the report with markdown syntax and "

def rpt11 : Str :=
    " format.\n- Structure your report with clear markdown headers: use # for the main title, ## for major sections, and ### for subsections.\n- Use markdown tables when presenting structured data, demographics, comparisons, or scoring to enhance readability.\n- PRIORITIZE location quality (demographics, walkability, development activity) and tenant creditworthiness - these are critical for acquisition decisions.\n"

def rpt12 : Str :=
    "- You MUST prioritize the relevance, reliability, and significance of the sources. Trusted sources include: Boulder Group, IPA Commercial, GRESB, Numerator, SEC filings, credit rating agencies.\n- Prioritize recent articles and data from the past 12 months when available.\n- You MUST NOT include a table of contents, but DO include proper markdown headers (# ## ###).\n- Use in-text citation references in "

def rpt13 : Str :=
    " format with markdown hyperlinks: ([in-text citation](url)).\n- Include specific data points, numbers, statistics, and dates whenever available.\n- Don\x27t forget to add a reference list at the end of the report in "

def rpt14 : Str :=
    "\n\nYou MUST write the report in the following language: "

def rpt15 : Str :=
    ".\nThis acquisition analysis is critical for investment decisions and follows best practices for net lease retail real estate due diligence.\nAssume that the current date is "

/-- Source: `generate_report_prompt(question, context, report_source, report_format="apa",
total_words=1000, tone=None, language="english")`; the process-wide current-date observation
`date.today()` is the explicit `today` argument. -/
def PromptFamily.generate_report_prompt (question context report_source report_format : Str)
    (total_words : Nat) (tone : Option Tone) (language : Str) (today : Str) : Str :=
  let reference_prompt := if report_source = ReportSource_Web then webReferencePrompt else docReferencePrompt
  let tone_prompt := tonePrompt tone
  "\nInformation: \"" ++
    context ++
    rpt0 ++
    question ++
    rpt1 ++
    Nat.repr total_words ++
    rpt2 ++
    rpt3 ++
    rpt4 ++
    rpt5 ++
    rpt6 ++
    rpt7 ++
    rpt8 ++
    rpt9 ++
    rpt10 ++
    report_format ++
    rpt11 ++
    rpt12 ++
    report_format ++
    rpt13 ++
    report_format ++
    " format.\n- " ++
    reference_prompt ++
    "\n- " ++
    tone_prompt ++
    rpt14 ++
    language ++
    rpt15 ++
    today ++
    ".\n"

def cur0 : Str :=
    "Your goal is to evaluate and curate the provided scraped content for the research task: \""

def cur1 : Str :=
    "\"\n    while prioritizing the inclusion of relevant and high-quality information, especially sources containing statistics, numbers, or concrete data.\n\nThe final curated list will be used as context for creating a research report, so prioritize:\n- Retaining as much original information as possible, with extra emphasis on sources featuring quantitative data or unique insights\n- Including a wide range of perspectives and insights\n"

def cur2 : Str :=
    "- Filtering out only clearly irrelevant or unusable content\n\nEVALUATION GUIDELINES:\n1. Assess each source based on:\n   - Relevance: Include sources directly or partially connected to the research query. Err on the side of inclusion.\n   - Credibility: Favor authoritative sources but retain others unless clearly untrustworthy.\n   - Currency: Prefer recent information unless older data is essential or valuable.\n"

def cur3 : Str :=
    "   - Objectivity: Retain sources with bias if they provide a unique or complementary perspective.\n   - Quantitative Value: Give higher priority to sources with statistics, numbers, or other concrete data.\n2. Source Selection:\n   - Include as many relevant sources as "

def cur4 : Str :=
    " coverage and diversity.\n   - Prioritize sources with statistics, numerical data, or verifiable facts.\n   - Overlapping content is acceptable if it adds depth, especially when data is involved.\n   - Exclude sources only if they are entirely irrelevant, severely outdated, or unusable due to poor content quality.\n3. Content Retention:\n   - DO NOT rewrite, summarize, or condense any source content.\n"

def cur5 : Str :=
    "   - Retain all usable information, cleaning up only clear garbage or formatting issues.\n   - Keep marginally relevant or incomplete sources if they contain valuable data or insights.\n\nSOURCES LIST TO EVALUATE:\n"

def cur6 : Str :=
    "\n\nYou MUST return your response in the EXACT sources JSON list format as the original sources.\nThe response MUST not contain any markdown format or additional text (like ```json), just the JSON list!\n"

/-- Source: `curate_sources(query, sources, max_results=10)`. -/
def PromptFamily.curate_sources (query : Str) (sources : Str) (max_results : Nat) : Str :=
    cur0 ++
    query ++
    cur1 ++
    cur2 ++
    cur3 ++
    "possible, " ++
    "up to " ++
    Nat.repr max_results ++
    "," ++
    " focusing on broad" ++
    cur4 ++
    cur5 ++
    sources ++
    cur6

def deep0 : Str :=
    "\nUsing the following hierarchically researched information and citations:\n\n\""

def deep1 : Str :=
    "\"\n\nWrite a comprehensive research report answering the query: \""

def deep2 : Str :=
    "\"\n\nThe report should:\n1. Synthesize information from multiple levels of research depth\n2. Integrate findings from various research branches\n3. Present a coherent narrative that builds from foundational to advanced insights\n4. Maintain proper citation of sources throughout\n5. Be well-structured with clear sections and subsections\n6. Have a minimum length of "

def deep3 : Str :=
    " format with markdown syntax\n8. Use markdown tables, lists and other formatting features when presenting comparative data, statistics, or structured information\n\nAdditional requirements:\n- Prioritize insights that emerged from deeper levels of research\n- Highlight connections between different research branches\n- Include relevant statistics, data, and concrete examples\n"

def deep4 : Str :=
    "- You MUST determine your own concrete and valid opinion based on the given information. Do NOT defer to general and meaningless conclusions.\n- You MUST prioritize the relevance, reliability, and significance of the sources you use. Choose trusted sources over less reliable ones.\n- You must also prioritize new articles over older articles if the source can be trusted.\n- Use in-text citation references in "

def deep5 : Str :=
    " format and make it with markdown hyperlink placed at the end of the sentence or paragraph that references them like this: ([in-text citation](url)).\n- "

def deep6 : Str :=
    "\n\nPlease write a thorough, well-researched report that synthesizes all the gathered information into a cohesive whole.\nAssume the current date is "

/-- Source: `generate_deep_research_prompt(question, context, report_source,
report_format="apa", tone=None, total_words=2000, language="english")`; the current-date
observation is the explicit `today` argument. -/
def PromptFamily.generate_deep_research_prompt (question context report_source report_format : Str)
    (tone : Option Tone) (total_words : Nat) (language : Str) (today : Str) : Str :=
  let reference_prompt := if report_source = ReportSource_Web then webReferencePrompt else docReferencePrompt
  let tone_prompt := tonePrompt tone
  deep0 ++
    context ++
    deep1 ++
    question ++
    deep2 ++
    Nat.repr total_words ++
    " words\n7. Follow " ++
    report_format ++
    deep3 ++
    deep4 ++
    report_format ++
    deep5 ++
    tone_prompt ++
    "\n- Write in " ++
    language ++
    "\n\n" ++
    reference_prompt ++
    deep6 ++
    today ++
    ".\n"

def sub0 : Str :=
    "\"\n\nMain Topic and Subtopic:\nUsing the latest information available, construct a detailed report on the subtopic: "

def sub1 : Str :=
    ".\nYou must limit the number of subsections to a maximum of "

def sub2 : Str :=
    ".\n\nContent Focus:\n- The report should focus on answering the question, be well-structured, informative, in-depth, and include facts and numbers if available.\n- Use markdown syntax and follow the "

def sub3 : Str :=
    " format.\n- When presenting data, comparisons, or structured information, use markdown tables to enhance readability.\n\nIMPORTANT:Content and Sections Uniqueness:\n- This part of the instructions is crucial to ensure the content is unique and does not overlap with existing reports.\n- Carefully review the existing headers and existing written contents provided below before writing any new subsections.\n"

def sub4 : Str :=
    "- Prevent any content that is already covered in the existing written contents.\n- Do not use any of the existing headers as the new subsection headers.\n- Do not repeat any information already covered in the existing written contents or closely related variations to avoid duplicates.\n- If you have nested subsections, ensure they are unique and not covered in the existing written contents.\n"

def sub5 : Str :=
    "- Ensure that your content is entirely new and does not overlap with any information already covered in the previous subtopic reports.\n\n\"Existing Subtopic Reports\":\n- Existing subtopic reports and their section headers:\n\n    "

def sub6 : Str :=
    "\n\n- Existing written contents from previous subtopic reports:\n\n    "

def sub7 : Str :=
    "\n\n\"Structure and Formatting\":\n- As this sub-report will be part of a larger report, include only the main body divided into suitable subtopics without any introduction or conclusion section.\n\n- You MUST include markdown hyperlinks to relevant source URLs wherever referenced in the report, for example:\n\n    ### Section Header\n\n    This is a sample text ([in-text citation](url)).\n\n- Use H2 for the main subtopic header (##) and H3 for subsections (###).\n"

def sub8 : Str :=
    "- Use smaller Markdown headers (e.g., H2 or H3) for content structure, avoiding the largest header (H1) as it will be used for the larger report\x27s heading.\n- Organize your content into distinct sections that complement but do not overlap with existing reports.\n- When adding similar or identical subsections to your report, you should clearly indicate the differences between and the new content and the existing written content from previous subtopic reports. For example:\n\n"

def sub9 : Str :=
    "    ### New header (similar to existing header)\n\n    While the previous section discussed [topic A], this section will explore [topic B].\"\n\n\"Date\":\nAssume the current date is "

def sub10 : Str :=
    " if required.\n\n\"IMPORTANT!\":\n- You MUST write the report in the following language: "

def sub11 : Str :=
    ".\n- The focus MUST be on the main topic! You MUST Leave out any information un-related to it!\n- Must NOT have any introduction, conclusion, summary or reference section.\n- You MUST use in-text citation references in "

def sub12 : Str :=
    " format and make it with markdown hyperlink placed at the end of the sentence or paragraph that references them like this: ([in-text citation](url)).\n- You MUST mention the difference between the existing content and the new content in the report if you are adding the similar or same subsections wherever necessary.\n- The report should have a minimum length of "

def sub13 : Str :=
    " tone throughout the report.\n\nDo NOT add a conclusion section.\n"

/-- Source: `generate_subtopic_report_prompt(current_subtopic, existing_headers,
relevant_written_contents, main_topic, context, report_format="apa", max_subsections=5,
total_words=800, tone=Tone.Objective, language="english")`. The two list-valued arguments
are interpolated by the f-string through python str(), so they are modelled here by the
rendered strings; the current-date observation is the explicit `today` argument. -/
def PromptFamily.generate_subtopic_report_prompt (current_subtopic existing_headers relevant_written_contents main_topic context : Str)
    (report_format : Str) (max_subsections : Nat) (total_words : Nat) (tone : Tone)
    (language : Str) (today : Str) : Str :=
    "\nContext:\n\"" ++
    context ++
    sub0 ++
    current_subtopic ++
    " under the main topic: " ++
    main_topic ++
    sub1 ++
    Nat.repr max_subsections ++
    sub2 ++
    pyUpper report_format ++
    sub3 ++
    sub4 ++
    sub5 ++
    existing_headers ++
    sub6 ++
    relevant_written_contents ++
    sub7 ++
    sub8 ++
    sub9 ++
    today ++
    sub10 ++
    language ++
    sub11 ++
    pyUpper report_format ++
    sub12 ++
    Nat.repr total_words ++
    " words.\n- Use an " ++
    tone.value ++
    sub13

/-- Source: `generate_resource_report_prompt(question, context, report_source,
report_format="apa", tone=None, total_words=1000, language="english")` (prompts.py
lines 402-440).  Note that the url-hyperlink directive is part of the unconditional
tail of the returned string (lines 437-438), before `reference_prompt` is appended. -/
def PromptFamily.generate_resource_report_prompt (question context report_source report_format : Str)
    (tone : Option Tone) (total_words : Nat) (language : Str) : Str :=
  let reference_prompt :=
    if report_source = ReportSource_Web then resourceWebReferencePrompt else resourceDocReferencePrompt
  "\"\"\"" ++
    context ++
    "\"\"\"\n\nBased on the above information, generate a bibliography recommendation report for the following" ++
    " question or topic: \"" ++
    question ++
    "\". The report should provide a detailed analysis of each recommended resource," ++
    " explaining how each source can contribute to finding answers to the research question.\n" ++
    "Focus on the relevance, reliability, and significance of each source.\n" ++
    "Ensure that the report is well-structured, informative, in-depth, and follows Markdown syntax.\n" ++
    "Use markdown tables and other formatting features when appropriate to organize and present information clearly.\n" ++
    "Include relevant facts, figures, and numbers whenever available.\n" ++
    "The report should have a minimum length of " ++
    Nat.repr total_words ++
    " words.\n" ++
    "You MUST write the report in the following language: " ++
    language ++
    ".\n" ++
    "You MUST include all relevant source urls." ++
    urlDirective ++
    reference_prompt

/-- Source: `generate_custom_report_prompt(query_prompt, context, report_source,
report_format="apa", tone=None, total_words=1000, language="english")` (prompts.py
lines 442-446). -/
def PromptFamily.generate_custom_report_prompt (query_prompt context report_source report_format : Str)
    (tone : Option Tone) (total_words : Nat) (language : Str) : Str :=
  "\"" ++ context ++ ("\"\n\n" ++ query_prompt)

/-- Source: `generate_outline_report_prompt(question, context, report_source,
report_format="apa", tone=None, total_words=1000, language="english")` (prompts.py
lines 448-465). -/
def PromptFamily.generate_outline_report_prompt (question context report_source report_format : Str)
    (tone : Option Tone) (total_words : Nat) (language : Str) : Str :=
  "\"\"\"" ++
    context ++
    "\"\"\" Using the above information, generate an outline for a research report in Markdown syntax" ++
    " for the following question or topic: \"" ++
    question ++
    "\". The outline should provide a well-structured framework" ++
    " for the research report, including the main sections, subsections, and key points to be covered." ++
    " The research report should be detailed, informative, in-depth, and a minimum of " ++
    Nat.repr total_words ++
    " words." ++
    " Use appropriate Markdown syntax to format the outline and ensure readability." ++
    " Consider using markdown tables and other formatting features where they would enhance the presentation of information."

/-! ## Documents -/

/-- A `langchain` document as observed by `pretty_print_docs`: a metadata dictionary
(read through `.get`, which yields `None` for a missing key) and a page content. -/
structure Document where
  metadata : List (Str × Str)
  page_content : Str

/-- How an f-string renders `metadata.get(key)`: the value, or `None` when absent. -/
def pyStrOptStr : Option Str → Str
  | some s => s
  | none => "None"

/-- The per-document rendering inside `pretty_print_docs` (prompts.py lines 632-634):
`f"Source: {d.metadata.get('source')}\nTitle: {d.metadata.get('title')}\nContent: {d.page_content}\n"`. -/
def renderDoc (d : Document) : Str :=
  "Source: " ++ pyStrOptStr (d.metadata.lookup "source") ++ "\n" ++
    "Title: " ++ pyStrOptStr (d.metadata.lookup "title") ++ "\n" ++
    "Content: " ++ d.page_content ++ "\n"

/-- Source: `pretty_print_docs(docs, top_n=None)` (prompts.py lines 629-636): a
newline-join over the documents of rank `i` with `top_n is None or i < top_n`. -/
def PromptFamily.pretty_print_docs (docs : List Document) (top_n : Option Int) : Str :=
  String.intercalate "\n"
    ((docs.enum.filter fun p =>
        match top_n with
        | none => true
        | some n => decide ((p.1 : Int) < n)).map fun p => renderDoc p.2)

/-! ## Dispatch: report-type resolution -/

/-- The six prompt-generator methods of `PromptFamily` that `report_type_mapping`
can name. -/
inductive PromptMethod
  | research
  | resource
  | outline
  | custom
  | subtopic
  | deep
  deriving DecidableEq

/-- Source: the `report_type_mapping` table (prompts.py lines 847-854). -/
def report_type_mapping : List (Str × Str) :=
  [(ReportType_ResearchReport, "generate_report_prompt"),
   (ReportType_ResourceReport, "generate_resource_report_prompt"),
   (ReportType_OutlineReport, "generate_outline_report_prompt"),
   (ReportType_CustomReport, "generate_custom_report_prompt"),
   (ReportType_SubtopicReport, "generate_subtopic_report_prompt"),
   (ReportType_DeepResearch, "generate_deep_research_prompt")]

/-- Models `getattr(prompt_family, name, None)` on the base `PromptFamily` class,
restricted to the generator methods reachable through `report_type_mapping`; any
other name (in particular the empty string used as the `.get` default) yields
`none`. -/
def promptFamilyAttr (name : Str) : Option PromptMethod :=
  ([("generate_report_prompt", PromptMethod.research),
    ("generate_resource_report_prompt", PromptMethod.resource),
    ("generate_outline_report_prompt", PromptMethod.outline),
    ("generate_custom_report_prompt", PromptMethod.custom),
    ("generate_subtopic_report_prompt", PromptMethod.subtopic),
    ("generate_deep_research_prompt", PromptMethod.deep)] : List (Str × PromptMethod)).lookup name

/-- The warning text of `get_prompt_by_report_type` (prompts.py lines 864-869). -/
def invalidReportTypeWarning (report_type : Str) : Str :=
  "Invalid report type: " ++ report_type ++ ".\n" ++
    "Please use one of the following: " ++
    String.intercalate ", " (report_type_mapping.map Prod.fst) ++ "\n" ++
    "Using default report type: " ++ ReportType_ResearchReport ++ " prompt."

/-- Source: `get_prompt_by_report_type(report_type, prompt_family)` (prompts.py lines
857-871), for the base `PromptFamily`.  The first component collects the warnings
emitted, the second is the resolved bound method (`none` would model the
`AttributeError` of a failing fallback `getattr`, which cannot happen here because
the default method exists). -/
def get_prompt_by_report_type (report_type : Str) : List Str × Option PromptMethod :=
  match promptFamilyAttr ((report_type_mapping.lookup report_type).getD "") with
  | some m => ([], some m)
  | none =>
    ([invalidReportTypeWarning report_type],
     (report_type_mapping.lookup ReportType_ResearchReport).bind promptFamilyAttr)

/-! ## Dispatch: prompt-family resolution -/

/-- The python `TypeError` raised by a call with missing required arguments. -/
inductive PyError
  | typeError
  deriving DecidableEq

/-- A constructed instance of the (base) `PromptFamily` class; `__init__` stores the
configuration it received. -/
structure PromptFamilyInst where
  cfg : Config
  deriving DecidableEq

/-- Calling the `PromptFamily` class: `PromptFamily(config)` binds the required
`config` parameter of `__init__` (prompts.py line 31); a zero-argument call
`PromptFamily()` raises `TypeError` because `config` has no default. -/
def promptFamilyNew : Option Config → Except PyError PromptFamilyInst
  | some c => .ok ⟨c⟩
  | none => .error .typeError

/-- The only registered prompt-family class. -/
inductive PromptFamilyClass
  | promptFamily
  deriving DecidableEq

/-- Source: the `prompt_family_mapping` table (prompts.py lines 874-876). -/
def prompt_family_mapping : List (Str × PromptFamilyClass) :=
  [(PromptFamilyEnum_Default, PromptFamilyClass.promptFamily)]

/-- Calling a prompt-family class with an optional single positional argument. -/
def classNew : PromptFamilyClass → Option Config → Except PyError PromptFamilyInst
  | .promptFamily, arg => promptFamilyNew arg

/-- The warning text of `get_prompt_family` (prompts.py lines 887-892). -/
def invalidPromptFamilyWarning (name : Str) : Str :=
  "Invalid prompt family: " ++ name ++ ".\n" ++
    "Please use one of the following: " ++
    String.intercalate ", " (prompt_family_mapping.map Prod.fst) ++ "\n" ++
    "Using default prompt family: " ++ PromptFamilyEnum_Default ++ " prompt."

/-- Source: `get_prompt_family(prompt_family_name, config)` (prompts.py lines
879-893), for a string-typed name (an enum-typed name is first normalized to its
`.value` string).  A registered name constructs `prompt_family(config)`; an
unregistered name emits the warning and then evaluates `PromptFamily()` — a call
with no argument. -/
def get_prompt_family (prompt_family_name : Str) (config : Config) :
    List Str × Except PyError PromptFamilyInst :=
  match prompt_family_mapping.lookup prompt_family_name with
  | some cls => ([], classNew cls (some config))
  | none =>
    ([invalidPromptFamilyWarning prompt_family_name],
     classNew PromptFamilyClass.promptFamily none)

/-- To show that a string contains `pat`, exhibit the surrounding text. -/
theorem sContains_intro {s : Str} (pre pat post : Str) (h : s = pre ++ (pat ++ post)) :
    sContains s pat := by
  subst h
  rw [sContains, String.data_append, String.data_append]
  exact ⟨pre.data, post.data, List.append_assoc pre.data pat.data post.data⟩

/-- A pattern absent from `a`, absent from `b` and unable to straddle their boundary
is absent from `a ++ b`. -/
theorem not_infix_append {p a b : List Char}
    (ha : ¬ p <:+: a) (hb : ¬ p <:+: b) (hs : noStraddle p a b) : ¬ p <:+: a ++ b := by
  rintro ⟨s, t, he⟩
  rw [List.append_assoc] at he
  rcases List.append_eq_append_iff.mp he with ⟨a', ha1, ha2⟩ | ⟨c', hc1, hc2⟩
  · rcases List.append_eq_append_iff.mp ha2 with ⟨w, hw1, _⟩ | ⟨w, hw1, hw2⟩
    · exact ha ⟨s, w, by rw [ha1, hw1, List.append_assoc]⟩
    · rcases eq_or_ne a' [] with rfl | hane
      · exact hb ⟨[], t, by simp at hw1; rw [← hw1] at hw2; simp [hw2]⟩
      · rcases eq_or_ne w [] with rfl | hwne
        · refine ha ⟨s, [], ?_⟩
          rw [List.append_nil] at hw1 ⊢
          rw [ha1, hw1]
        · refine hs a'.length ?_ ?_ ⟨?_, ?_⟩
          · rw [hw1, List.length_append]
            have : 0 < w.length := List.length_pos.mpr hwne
            omega
          · exact List.length_pos.mpr hane
          · rw [hw1, List.take_left]
            exact ⟨s, ha1.symm⟩
          · rw [hw1, List.drop_left]
            exact ⟨t, hw2.symm⟩
  · exact hb ⟨c', t, by rw [hc2, List.append_assoc]⟩

theorem scan_start_cons (c : Char) (cs : List Char) :
    scan .start (c :: cs)
      = if c = '\n' then scan .start cs else if c = '#' then scan .hash cs else scan .mid cs := rfl

theorem scan_mid_cons (c : Char) (cs : List Char) :
    scan .mid (c :: cs) = if c = '\n' then scan .start cs else scan .mid cs := rfl

theorem stateAfter_cons (c : Char) (cs : List Char) (st : ScanSt) :
    stateAfter (c :: cs) st = stateAfter cs (if c = '\n' then .start else .mid) := rfl

theorem stateAfter_ne_hash : ∀ (s : List Char) (st : ScanSt), st ≠ .hash → stateAfter s st ≠ .hash := by
  intro s
  induction s with
  | nil => intro st h; exact h
  | cons c cs ih =>
    intro st _
    rw [stateAfter_cons]
    refine ih _ ?_
    by_cases hc : c = '\n' <;> simp [hc]

/-- Walking `#`-free text never reports a heading and ends in the predicted state. -/
theorem scan_noHash : ∀ (s : List Char), '#' ∉ s → ∀ (st : ScanSt), st ≠ .hash →
    ∀ (t : List Char), scan st (s ++ t) = scan (stateAfter s st) t := by
  intro s
  induction s with
  | nil => intro _ st _ t; rfl
  | cons c cs ih =>
    intro h st hst t
    have hc : c ≠ '#' := fun e => h (e ▸ List.mem_cons_self c cs)
    have hcs : '#' ∉ cs := fun m => h (List.mem_cons_of_mem c m)
    rw [List.cons_append, stateAfter_cons]
    by_cases hnl : c = '\n'
    · cases st with
      | hash => exact absurd rfl hst
      | start => rw [scan_start_cons, if_pos hnl, if_pos hnl, ih hcs .start (by decide)]
      | mid => rw [scan_mid_cons, if_pos hnl, if_pos hnl, ih hcs .start (by decide)]
    · cases st with
      | hash => exact absurd rfl hst
      | start => rw [scan_start_cons, if_neg hnl, if_neg hc, if_neg hnl, ih hcs .mid (by decide)]
      | mid => rw [scan_mid_cons, if_neg hnl, if_neg hnl, ih hcs .mid (by decide)]

theorem digitChar_ne_hash (m : Nat) : Nat.digitChar m ≠ '#' := by
  match m with
  | 0 | 1 | 2 | 3 | 4 | 5 | 6 | 7 | 8 | 9 | 10 | 11 | 12 | 13 | 14 | 15 => decide
  | n + 16 =>
    unfold Nat.digitChar
    repeat rw [if_neg (by omega)]
    decide

theorem toDigitsCore_noHash : ∀ (fuel n : Nat) (acc : List Char),
    '#' ∉ acc → '#' ∉ Nat.toDigitsCore 10 fuel n acc := by
  intro fuel
  induction fuel with
  | zero => intro n acc h; exact h
  | succ fuel ih =>
    intro n acc h
    have hd : '#' ∉ Nat.digitChar (n % 10) :: acc := by
      intro hm
      rcases List.mem_cons.mp hm with he | hm2
      · exact digitChar_ne_hash _ he.symm
      · exact h hm2
    show '#' ∉ Nat.toDigitsCore 10 (fuel + 1) n acc
    unfold Nat.toDigitsCore
    by_cases h0 : n / 10 = 0
    · simpa [h0] using hd
    · simpa [h0] using ih _ _ hd

/-- The decimal rendering of a natural number contains no `#`. -/
theorem noHash_repr (n : Nat) : noHash (Nat.repr n) := by
  show '#' ∉ (Nat.repr n).data
  have h : (Nat.repr n).data = Nat.toDigitsCore 10 (n + 1) n [] := rfl
  rw [h]
  exact toDigitsCore_noHash (n + 1) n [] (by simp)

theorem toUpper_ne_hash (c : Char) (h : c ≠ '#') : c.toUpper ≠ '#' := by
  have hu : c.toUpper = if c.toNat ≥ 97 ∧ c.toNat ≤ 122 then Char.ofNat (c.toNat - 32) else c := rfl
  rw [hu]
  split
  · next hc =>
    obtain ⟨h1, h2⟩ := hc
    generalize c.toNat = n at h1 h2
    interval_cases n <;> decide
  · exact h

/-! ## String length -/

theorem length_pos_left (a b : Str) (h : 0 < a.length) : 0 < (a ++ b).length := by
  rw [String.length_append]
  omega

/-! ## Association-list lookup -/

theorem lookup_eq_none_of_not_mem {β : Type} : ∀ (l : List (Str × β)) (a : Str),
    a ∉ l.map Prod.fst → l.lookup a = none := by
  intro l
  induction l with
  | nil => intro a _; rfl
  | cons kv tl ih =>
    intro a h
    obtain ⟨k, v⟩ := kv
    simp only [List.map_cons, List.mem_cons, not_or] at h
    have hk : (a == k) = false := beq_eq_false_iff_ne.mpr h.1
    simp [List.lookup, hk, ih _ h.2]

theorem noHash_pyUpper {s : Str} (h : noHash s) : noHash (pyUpper s) := by
  intro hm
  have hm2 : '#' ∈ s.data.map Char.toUpper := hm
  rcases List.mem_map.mp hm2 with ⟨c, hc, he⟩
  exact toUpper_ne_hash c (fun e => h (e ▸ hc)) he

theorem subScan0 (st : ScanSt) (hst : st ≠ ScanSt.hash) (t : List Char) :
    scan st (("\nContext:\n\"" : Str).data ++ t) = scan ScanSt.mid t := by
  cases st with
  | hash => exact absurd rfl hst
  | mid => rfl
  | start => rfl

theorem subScan2 (st : ScanSt) (hst : st ≠ ScanSt.hash) (t : List Char) :
    scan st (sub0.data ++ t) = scan ScanSt.mid t := by
  cases st with
  | hash => exact absurd rfl hst
  | mid => rfl
  | start => rfl

theorem subScan4 (st : ScanSt) (hst : st ≠ ScanSt.hash) (t : List Char) :
    scan st ((" under the main topic: " : Str).data ++ t) = scan ScanSt.mid t := by
  cases st with
  | hash => exact absurd rfl hst
  | mid => rfl
  | start => rfl

theorem subScan6 (st : ScanSt) (hst : st ≠ ScanSt.hash) (t : List Char) :
    scan st (sub1.data ++ t) = scan ScanSt.mid t := by
  cases st with
  | hash => exact absurd rfl hst
  | mid => rfl
  | start => rfl

theorem subScan8 (st : ScanSt) (hst : st ≠ ScanSt.hash) (t : List Char) :
    scan st (sub2.data ++ t) = scan ScanSt.mid t := by
  cases st with
  | hash => exact absurd rfl hst
  | mid => rfl
  | start => rfl

theorem subScan10 (st : ScanSt) (hst : st ≠ ScanSt.hash) (t : List Char) :
    scan st (sub3.data ++ t) = scan ScanSt.start t := by
  cases st with
  | hash => exact absurd rfl hst
  | mid => rfl
  | start => rfl

theorem subScan11 (st : ScanSt) (hst : st ≠ ScanSt.hash) (t : List Char) :
    scan st (sub4.data ++ t) = scan ScanSt.start t := by
  cases st with
  | hash => exact absurd rfl hst
  | mid => rfl
  | start => rfl

theorem subScan12 (st : ScanSt) (hst : st ≠ ScanSt.hash) (t : List Char) :
    scan st (sub5.data ++ t) = scan ScanSt.mid t := by
  cases st with
  | hash => exact absurd rfl hst
  | mid => rfl
  | start => rfl

theorem subScan14 (st : ScanSt) (hst : st ≠ ScanSt.hash) (t : List Char) :
    scan st (sub6.data ++ t) = scan ScanSt.mid t := by
  cases st with
  | hash => exact absurd rfl hst
  | mid => rfl
  | start => rfl

theorem subScan16 (st : ScanSt) (hst : st ≠ ScanSt.hash) (t : List Char) :
    scan st (sub7.data ++ t) = scan ScanSt.start t := by
  cases st with
  | hash => exact absurd rfl hst
  | mid => rfl
  | start => rfl

theorem subScan17 (st : ScanSt) (hst : st ≠ ScanSt.hash) (t : List Char) :
    scan st (sub8.data ++ t) = scan ScanSt.start t := by
  cases st with
  | hash => exact absurd rfl hst
  | mid => rfl
  | start => rfl

theorem subScan18 (st : ScanSt) (hst : st ≠ ScanSt.hash) (t : List Char) :
    scan st (sub9.data ++ t) = scan ScanSt.mid t := by
  cases st with
  | hash => exact absurd rfl hst
  | mid => rfl
  | start => rfl

theorem subScan20 (st : ScanSt) (hst : st ≠ ScanSt.hash) (t : List Char) :
    scan st (sub10.data ++ t) = scan ScanSt.mid t := by
  cases st with
  | hash => exact absurd rfl hst
  | mid => rfl
  | start => rfl

theorem subScan22 (st : ScanSt) (hst : st ≠ ScanSt.hash) (t : List Char) :
    scan st (sub11.data ++ t) = scan ScanSt.mid t := by
  cases st with
  | hash => exact absurd rfl hst
  | mid => rfl
  | start => rfl

theorem subScan24 (st : ScanSt) (hst : st ≠ ScanSt.hash) (t : List Char) :
    scan st (sub12.data ++ t) = scan ScanSt.mid t := by
  cases st with
  | hash => exact absurd rfl hst
  | mid => rfl
  | start => rfl

theorem subScan26 (st : ScanSt) (hst : st ≠ ScanSt.hash) (t : List Char) :
    scan st ((" words.\n- Use an " : Str).data ++ t) = scan ScanSt.mid t := by
  cases st with
  | hash => exact absurd rfl hst
  | mid => rfl
  | start => rfl

theorem subScan28 (st : ScanSt) (hst : st ≠ ScanSt.hash) :
    scan st sub13.data = false := by
  cases st with
  | hash => exact absurd rfl hst
  | mid => rfl
  | start => rfl

/-! ## Auxiliary lemmas for `pretty_print_docs` -/

theorem enumFrom_filter_lt_map {α β : Type} (f : α → β) (n : Int) :
    ∀ (l : List α) (k : Nat),
      ((l.enumFrom k).filter fun p => decide ((p.1 : Int) < n)).map (fun p => f p.2)
        = (l.take (n - k).toNat).map f := by
  intro l
  induction l with
  | nil => intro k; simp
  | cons d tl ih =>
    intro k
    show (((k, d) :: tl.enumFrom (k + 1)).filter fun p => decide ((p.1 : Int) < n)).map _ = _
    by_cases hk : (k : Int) < n
    · rw [List.filter_cons_of_pos (by simpa using hk), List.map_cons, ih (k + 1)]
      have h2 : (n - (k : Int)).toNat = (n - ((k + 1 : Nat) : Int)).toNat + 1 := by omega
      rw [h2, List.take_succ_cons, List.map_cons]
    · rw [List.filter_cons_of_neg (by simpa using hk), ih (k + 1)]
      have h2 : (n - (k : Int)).toNat = 0 := by omega
      have h3 : (n - ((k + 1 : Nat) : Int)).toNat = 0 := by omega
      rw [h2, h3]
      rfl

theorem take_toNat_min {α : Type} (l : List α) (n : Int) :
    l.take n.toNat = l.take (min n (l.length : Int)).toNat := by
  rcases le_or_lt n l.length with h | h
  · rw [min_eq_left h]
  · rw [min_eq_right h.le]
    rw [Int.toNat_natCast, List.take_length]
    refine List.take_of_length_le ?_
    omega

/-! ## Claims -/

/-- C1: the claim states that for every unrecognized prompt-family identifier,
`get_prompt_family` emits a non-fatal warning and returns a constructed default
`PromptFamily` instance, never raising.  The code does emit exactly the warning, but
the fallback then evaluates `PromptFamily()` although `PromptFamily.__init__`
requires a `config` argument, so the call raises `TypeError` instead of returning an
instance: evaluated here at the unregistered identifier `"nonexistent_family"`. -/
theorem C1_unknown_prompt_family_raises :
    (get_prompt_family "nonexistent_family" Config.mk).1
        = [invalidPromptFamilyWarning "nonexistent_family"] ∧
      (get_prompt_family "nonexistent_family" Config.mk).2
        = Except.error PyError.typeError :=
  ⟨rfl, rfl⟩

/-- C2: for every report-type identifier absent from the dispatch table,
`get_prompt_by_report_type` emits exactly one warning and returns the same bound
method that resolution of the canonical default identifier `"research_report"`
returns (`generate_report_prompt`), without raising. -/
theorem C2_unknown_report_type_defaults (report_type : Str)
    (h : report_type ∉ report_type_mapping.map Prod.fst) :
    get_prompt_by_report_type report_type
        = ([invalidReportTypeWarning report_type], some PromptMethod.research) ∧
      get_prompt_by_report_type ReportType_ResearchReport
        = ([], some PromptMethod.research) := by
  constructor
  · have hl : report_type_mapping.lookup report_type = none :=
      lookup_eq_none_of_not_mem _ _ h
    unfold get_prompt_by_report_type
    rw [hl]
    rfl
  · rfl

/-- C2 witness: the concrete unregistered identifier `"bogus_type"`. -/
theorem C2_witness :
    ("bogus_type" ∉ report_type_mapping.map Prod.fst) ∧
      (get_prompt_by_report_type "bogus_type"
          = ([invalidReportTypeWarning "bogus_type"], some PromptMethod.research) ∧
        get_prompt_by_report_type ReportType_ResearchReport
          = ([], some PromptMethod.research)) :=
  ⟨by decide, C2_unknown_report_type_defaults "bogus_type" (by decide)⟩

/-- C6: for every query, every sources value and every positive `max_results`, the
string returned by `curate_sources` states the retention cap as exactly the decimal
rendering of `max_results` (the phrase `up to <max_results>,`), regardless of the
supplied sources. -/
theorem C6_curate_sources_cap (query sources : Str) (max_results : Nat)
    (h : 0 < max_results) :
    sContains (PromptFamily.curate_sources query sources max_results)
      ("up to " ++ Nat.repr max_results ++ ",") := by
  refine sContains_intro (cur0 ++ query ++ cur1 ++ cur2 ++ cur3 ++ "possible, ")
    ("up to " ++ Nat.repr max_results ++ ",")
    (" focusing on broad" ++ cur4 ++ cur5 ++ sources ++ cur6) ?_
  simp only [PromptFamily.curate_sources, String.append_assoc]

/-- C6 witness: cap 5 with a placeholder 20-source blob. -/
theorem C6_witness :
    0 < 5 ∧
      sContains (PromptFamily.curate_sources "best tenant" "(20 candidate sources)" 5)
        ("up to " ++ Nat.repr 5 ++ ",") :=
  ⟨by decide, C6_curate_sources_cap "best tenant" "(20 candidate sources)" 5 (by decide)⟩

/-- C7: for every query, tools list and positive `max_tools`, the tool-selection
prompt contains the literal exact-count phrase `EXACTLY <max_tools> tools` and
contains the JSON serialization of the full `tools_info` list. -/
theorem C7_tool_selection_prompt (query : Str) (tools_info : List McpToolInfo)
    (max_tools : Nat) (h : 0 < max_tools) :
    sContains (PromptFamily.generate_mcp_tool_selection_prompt query tools_info max_tools)
        ("EXACTLY " ++ Nat.repr max_tools ++ " tools") ∧
      sContains (PromptFamily.generate_mcp_tool_selection_prompt query tools_info max_tools)
        (jsonDumpsTools tools_info) := by
  constructor
  · refine sContains_intro
      (mcpSel0 ++ query ++ "\"\n\nAVAILABLE TOOLS:\n" ++ jsonDumpsTools tools_info ++
        "\n\nTASK: Analyze the tools and " ++ "select ")
      ("EXACTLY " ++ Nat.repr max_tools ++ " tools")
      (" that are most" ++ mcpSel1 ++ mcpSel2 ++ Nat.repr max_tools ++ mcpSel3) ?_
    simp only [PromptFamily.generate_mcp_tool_selection_prompt, String.append_assoc]
  · refine sContains_intro
      (mcpSel0 ++ query ++ "\"\n\nAVAILABLE TOOLS:\n")
      (jsonDumpsTools tools_info)
      ("\n\nTASK: Analyze the tools and " ++ "select " ++ "EXACTLY " ++ Nat.repr max_tools ++
        " tools" ++ " that are most" ++ mcpSel1 ++ mcpSel2 ++ Nat.repr max_tools ++ mcpSel3) ?_
    simp only [PromptFamily.generate_mcp_tool_selection_prompt, String.append_assoc]

/-- C7 witness: `max_tools = 3` with a two-tool catalog. -/
theorem C7_witness :
    0 < 3 ∧
      (sContains (PromptFamily.generate_mcp_tool_selection_prompt "best tenant"
            [[("name", JValue.str "tavily_search"), ("description", JValue.str "web search")],
             [("name", JValue.str "fetch"), ("description", JValue.str "url fetcher")]] 3)
          ("EXACTLY " ++ Nat.repr 3 ++ " tools") ∧
        sContains (PromptFamily.generate_mcp_tool_selection_prompt "best tenant"
            [[("name", JValue.str "tavily_search"), ("description", JValue.str "web search")],
             [("name", JValue.str "fetch"), ("description", JValue.str "url fetcher")]] 3)
          (jsonDumpsTools
            [[("name", JValue.str "tavily_search"), ("description", JValue.str "web search")],
             [("name", JValue.str "fetch"), ("description", JValue.str "url fetcher")]])) :=
  ⟨by decide,
    C7_tool_selection_prompt "best tenant"
      [[("name", JValue.str "tavily_search"), ("description", JValue.str "web search")],
       [("name", JValue.str "fetch"), ("description", JValue.str "url fetcher")]] 3 (by decide)⟩

/-- Auxiliary: mapping the second components of an enumeration is mapping the list. -/
theorem enumFrom_map_snd {α β : Type} (f : α → β) :
    ∀ (l : List α) (k : Nat), (l.enumFrom k).map (fun p => f p.2) = l.map f := by
  intro l
  induction l with
  | nil => intro k; rfl
  | cons d tl ih =>
    intro k
    show f (k, d).2 :: (tl.enumFrom (k + 1)).map (fun p => f p.2) = f d :: tl.map f
    rw [ih (k + 1)]

/-- C8: with the current-date observation held fixed, every generator is a
deterministic pure function of its arguments: two invocations with identical
arguments (and, for the generators that read the clock, an identical observed date)
yield identical output strings. -/
theorem C8_generators_deterministic :
    (∀ (question context report_source report_format : Str) (total_words : Nat)
        (tone : Option Tone) (language d1 d2 : Str), d1 = d2 →
        PromptFamily.generate_report_prompt question context report_source report_format
            total_words tone language d1
          = PromptFamily.generate_report_prompt question context report_source report_format
            total_words tone language d2) ∧
      (∀ (question context report_source report_format : Str) (tone : Option Tone)
          (total_words : Nat) (language d1 d2 : Str), d1 = d2 →
          PromptFamily.generate_deep_research_prompt question context report_source
              report_format tone total_words language d1
            = PromptFamily.generate_deep_research_prompt question context report_source
              report_format tone total_words language d2) ∧
      (∀ (current_subtopic existing_headers relevant_written_contents main_topic context
          report_format : Str) (max_subsections total_words : Nat) (tone : Tone)
          (language d1 d2 : Str), d1 = d2 →
          PromptFamily.generate_subtopic_report_prompt current_subtopic existing_headers
              relevant_written_contents main_topic context report_format max_subsections
              total_words tone language d1
            = PromptFamily.generate_subtopic_report_prompt current_subtopic existing_headers
              relevant_written_contents main_topic context report_format max_subsections
              total_words tone language d2) ∧
      (∀ (question context report_source report_format : Str) (tone : Option Tone)
          (total_words : Nat) (language : Str),
          PromptFamily.generate_resource_report_prompt question context report_source
              report_format tone total_words language
            = PromptFamily.generate_resource_report_prompt question context report_source
              report_format tone total_words language) ∧
      (∀ (question context report_source report_format : Str) (tone : Option Tone)
          (total_words : Nat) (language : Str),
          PromptFamily.generate_outline_report_prompt question context report_source
              report_format tone total_words language
            = PromptFamily.generate_outline_report_prompt question context report_source
              report_format tone total_words language) ∧
      (∀ (query_prompt context report_source report_format : Str) (tone : Option Tone)
          (total_words : Nat) (language : Str),
          PromptFamily.generate_custom_report_prompt query_prompt context report_source
              report_format tone total_words language
            = PromptFamily.generate_custom_report_prompt query_prompt context report_source
              report_format tone total_words language) ∧
      (∀ (query sources : Str) (max_results : Nat),
          PromptFamily.curate_sources query sources max_results
            = PromptFamily.curate_sources query sources max_results) ∧
      (∀ (query : Str) (tools_info : List McpToolInfo) (max_tools : Nat),
          PromptFamily.generate_mcp_tool_selection_prompt query tools_info max_tools
            = PromptFamily.generate_mcp_tool_selection_prompt query tools_info max_tools) ∧
      ∀ (query : Str) (selected_tools : List McpTool),
          PromptFamily.generate_mcp_research_prompt query selected_tools
            = PromptFamily.generate_mcp_research_prompt query selected_tools :=
  ⟨fun _ _ _ _ _ _ _ _ _ h => by rw [h],
    fun _ _ _ _ _ _ _ _ _ h => by rw [h],
    fun _ _ _ _ _ _ _ _ _ _ _ _ h => by rw [h],
    fun _ _ _ _ _ _ _ => rfl,
    fun _ _ _ _ _ _ _ => rfl,
    fun _ _ _ _ _ _ _ => rfl,
    fun _ _ _ => rfl,
    fun _ _ _ => rfl,
    fun _ _ => rfl⟩

/-- C8 witness: two invocations of `generate_report_prompt` under a frozen date. -/
theorem C8_witness :
    ("May 1, 2025" : Str) = "May 1, 2025" ∧
      PromptFamily.generate_report_prompt "Q" "C" "web" "apa" 1000 none "english" "May 1, 2025"
        = PromptFamily.generate_report_prompt "Q" "C" "web" "apa" 1000 none "english"
          "May 1, 2025" :=
  ⟨rfl, C8_generators_deterministic.1 "Q" "C" "web" "apa" 1000 none "english"
    "May 1, 2025" "May 1, 2025" rfl⟩

/-- C9: every report generator (and the MCP research generator) is total on text
inputs — the embedding raises nothing — and returns a non-empty prompt string, for
every argument tuple, the empty question and empty context included. -/
theorem C9_generators_total_nonempty :
    (∀ (question context report_source report_format : Str) (total_words : Nat)
        (tone : Option Tone) (language today : Str),
        0 < (PromptFamily.generate_report_prompt question context report_source report_format
            total_words tone language today).length) ∧
      (∀ (question context report_source report_format : Str) (tone : Option Tone)
          (total_words : Nat) (language : Str),
          0 < (PromptFamily.generate_resource_report_prompt question context report_source
              report_format tone total_words language).length) ∧
      (∀ (question context report_source report_format : Str) (tone : Option Tone)
          (total_words : Nat) (language : Str),
          0 < (PromptFamily.generate_outline_report_prompt question context report_source
              report_format tone total_words language).length) ∧
      (∀ (query_prompt context report_source report_format : Str) (tone : Option Tone)
          (total_words : Nat) (language : Str),
          0 < (PromptFamily.generate_custom_report_prompt query_prompt context report_source
              report_format tone total_words language).length) ∧
      (∀ (current_subtopic existing_headers relevant_written_contents main_topic context
          report_format : Str) (max_subsections total_words : Nat) (tone : Tone)
          (language today : Str),
          0 < (PromptFamily.generate_subtopic_report_prompt current_subtopic existing_headers
              relevant_written_contents main_topic context report_format max_subsections
              total_words tone language today).length) ∧
      (∀ (question context report_source report_format : Str) (tone : Option Tone)
          (total_words : Nat) (language today : Str),
          0 < (PromptFamily.generate_deep_research_prompt question context report_source
              report_format tone total_words language today).length) ∧
      ∀ (query : Str) (selected_tools : List McpTool),
          0 < (PromptFamily.generate_mcp_research_prompt query selected_tools).length := by
  refine ⟨?_, ?_, ?_, ?_, ?_, ?_, ?_⟩
  · intro question context report_source report_format total_words tone language today
    simp only [PromptFamily.generate_report_prompt, String.append_assoc]
    exact length_pos_left _ _ (by decide)
  · intro question context report_source report_format tone total_words language
    simp only [PromptFamily.generate_resource_report_prompt, String.append_assoc]
    exact length_pos_left _ _ (by decide)
  · intro question context report_source report_format tone total_words language
    simp only [PromptFamily.generate_outline_report_prompt, String.append_assoc]
    exact length_pos_left _ _ (by decide)
  · intro query_prompt context report_source report_format tone total_words language
    simp only [PromptFamily.generate_custom_report_prompt, String.append_assoc]
    exact length_pos_left _ _ (by decide)
  · intro current_subtopic existing_headers relevant_written_contents main_topic context
      report_format max_subsections total_words tone language today
    simp only [PromptFamily.generate_subtopic_report_prompt, String.append_assoc]
    exact length_pos_left _ _ (by decide)
  · intro question context report_source report_format tone total_words language today
    simp only [PromptFamily.generate_deep_research_prompt, String.append_assoc]
    exact length_pos_left _ _ (by decide)
  · intro query selected_tools
    simp only [PromptFamily.generate_mcp_research_prompt, String.append_assoc]
    exact length_pos_left _ _ (by decide)

/-- C10: `pretty_print_docs` renders, in input order, all documents when `top_n`
is `None` and exactly the first `min(top_n, len(docs))` documents when `top_n` is an
integer, each as the `Source:`/`Title:`/`Content:` lines of `renderDoc`, joined by
newlines. -/
theorem C10_pretty_print_docs_spec :
    (∀ docs : List Document,
        PromptFamily.pretty_print_docs docs none
          = String.intercalate "\n" (docs.map renderDoc)) ∧
      ∀ (docs : List Document) (n : Int),
        PromptFamily.pretty_print_docs docs (some n)
          = String.intercalate "\n"
              ((docs.take (min n (docs.length : Int)).toNat).map renderDoc) := by
  constructor
  · intro docs
    unfold PromptFamily.pretty_print_docs
    congr 1
    have he : (fun (p : Nat × Document) =>
        match (none : Option Int) with
        | none => true
        | some n => decide ((p.1 : Int) < n)) = fun _ => true := rfl
    rw [he, List.filter_true]
    exact enumFrom_map_snd renderDoc docs 0
  · intro docs n
    unfold PromptFamily.pretty_print_docs
    congr 1
    have he : (fun (p : Nat × Document) =>
        match (some n : Option Int) with
        | none => true
        | some m => decide ((p.1 : Int) < m)) = fun p => decide ((p.1 : Int) < n) := rfl
    rw [he]
    have h0 := enumFrom_filter_lt_map renderDoc n docs 0
    rw [show docs.enum = docs.enumFrom 0 from rfl, h0,
      show n - ((0 : Nat) : Int) = n from by omega, take_toNat_min]

/-- C3 counterexample: `"custom_report"` is a dispatch-table key, resolving to
`generate_custom_report_prompt`, but invoking that generator with valid sample
arguments yields a string that does not contain the caller-supplied language
`"english"` — its template never interpolates the language argument — refuting the
claim for this key (the `"outline_report"` key fails the same way). -/
theorem C3_counterexample :
    (get_prompt_by_report_type ReportType_CustomReport = ([], some PromptMethod.custom)) ∧
      ¬ sContains (PromptFamily.generate_custom_report_prompt "What drives cap rates?" "ctx"
          "web" "apa" none 1000 "english") "english" :=
  ⟨rfl, by decide⟩

/-- C3 (amended): every dispatch-table key resolves without warning to its generator
method, and each generator, on arbitrary arguments, returns a non-empty string
containing the caller-supplied question (for the subtopic generator: the current
subtopic) verbatim; the output also contains the caller-supplied language verbatim
for the research, resource, subtopic and deep-research generators — but not for the
outline and custom generators, whose templates never mention the language. -/
theorem C3_report_type_keys_resolve_and_embed :
    (get_prompt_by_report_type ReportType_ResearchReport = ([], some PromptMethod.research) ∧
      ∀ (question context report_source report_format : Str) (total_words : Nat)
        (tone : Option Tone) (language today : Str),
        0 < (PromptFamily.generate_report_prompt question context report_source report_format
            total_words tone language today).length ∧
        sContains (PromptFamily.generate_report_prompt question context report_source
            report_format total_words tone language today) question ∧
        sContains (PromptFamily.generate_report_prompt question context report_source
            report_format total_words tone language today) language) ∧
    (get_prompt_by_report_type ReportType_ResourceReport = ([], some PromptMethod.resource) ∧
      ∀ (question context report_source report_format : Str) (tone : Option Tone)
        (total_words : Nat) (language : Str),
        0 < (PromptFamily.generate_resource_report_prompt question context report_source
            report_format tone total_words language).length ∧
        sContains (PromptFamily.generate_resource_report_prompt question context report_source
            report_format tone total_words language) question ∧
        sContains (PromptFamily.generate_resource_report_prompt question context report_source
            report_format tone total_words language) language) ∧
    (get_prompt_by_report_type ReportType_OutlineReport = ([], some PromptMethod.outline) ∧
      ∀ (question context report_source report_format : Str) (tone : Option Tone)
        (total_words : Nat) (language : Str),
        0 < (PromptFamily.generate_outline_report_prompt question context report_source
            report_format tone total_words language).length ∧
        sContains (PromptFamily.generate_outline_report_prompt question context report_source
            report_format tone total_words language) question) ∧
    (get_prompt_by_report_type ReportType_CustomReport = ([], some PromptMethod.custom) ∧
      ∀ (query_prompt context report_source report_format : Str) (tone : Option Tone)
        (total_words : Nat) (language : Str),
        0 < (PromptFamily.generate_custom_report_prompt query_prompt context report_source
            report_format tone total_words language).length ∧
        sContains (PromptFamily.generate_custom_report_prompt query_prompt context
            report_source report_format tone total_words language) query_prompt) ∧
    (get_prompt_by_report_type ReportType_SubtopicReport = ([], some PromptMethod.subtopic) ∧
      ∀ (current_subtopic existing_headers relevant_written_contents main_topic context
        report_format : Str) (max_subsections total_words : Nat) (tone : Tone)
        (language today : Str),
        0 < (PromptFamily.generate_subtopic_report_prompt current_subtopic existing_headers
            relevant_written_contents main_topic context report_format max_subsections
            total_words tone language today).length ∧
        sContains (PromptFamily.generate_subtopic_report_prompt current_subtopic
            existing_headers relevant_written_contents main_topic context report_format
            max_subsections total_words tone language today) current_subtopic ∧
        sContains (PromptFamily.generate_subtopic_report_prompt current_subtopic
            existing_headers relevant_written_contents main_topic context report_format
            max_subsections total_words tone language today) language) ∧
    (get_prompt_by_report_type ReportType_DeepResearch = ([], some PromptMethod.deep) ∧
      ∀ (question context report_source report_format : Str) (tone : Option Tone)
        (total_words : Nat) (language today : Str),
        0 < (PromptFamily.generate_deep_research_prompt question context report_source
            report_format tone total_words language today).length ∧
        sContains (PromptFamily.generate_deep_research_prompt question context report_source
            report_format tone total_words language today) question ∧
        sContains (PromptFamily.generate_deep_research_prompt question context report_source
            report_format tone total_words language today) language) := by
  refine ⟨⟨rfl, ?_⟩, ⟨rfl, ?_⟩, ⟨rfl, ?_⟩, ⟨rfl, ?_⟩, ⟨rfl, ?_⟩, ⟨rfl, ?_⟩⟩
  · intro question context report_source report_format total_words tone language today
    refine ⟨?_, ?_, ?_⟩
    · simp only [PromptFamily.generate_report_prompt, String.append_assoc]
      exact length_pos_left _ _ (by decide)
    · refine sContains_intro ("\nInformation: \"" ++ context ++ rpt0) question
        (rpt1 ++ Nat.repr total_words ++ rpt2 ++ rpt3 ++ rpt4 ++ rpt5 ++ rpt6 ++ rpt7 ++
          rpt8 ++ rpt9 ++ rpt10 ++ report_format ++ rpt11 ++ rpt12 ++ report_format ++
          rpt13 ++ report_format ++ " format.\n- " ++
          (if report_source = ReportSource_Web then webReferencePrompt else docReferencePrompt) ++
          "\n- " ++ tonePrompt tone ++ rpt14 ++ language ++ rpt15 ++ today ++ ".\n") ?_
      simp only [PromptFamily.generate_report_prompt, String.append_assoc]
    · refine sContains_intro
        ("\nInformation: \"" ++ context ++ rpt0 ++ question ++ rpt1 ++ Nat.repr total_words ++
          rpt2 ++ rpt3 ++ rpt4 ++ rpt5 ++ rpt6 ++ rpt7 ++ rpt8 ++ rpt9 ++ rpt10 ++
          report_format ++ rpt11 ++ rpt12 ++ report_format ++ rpt13 ++ report_format ++
          " format.\n- " ++
          (if report_source = ReportSource_Web then webReferencePrompt else docReferencePrompt) ++
          "\n- " ++ tonePrompt tone ++ rpt14) language
        (rpt15 ++ today ++ ".\n") ?_
      simp only [PromptFamily.generate_report_prompt, String.append_assoc]
  · intro question context report_source report_format tone total_words language
    refine ⟨?_, ?_, ?_⟩
    · simp only [PromptFamily.generate_resource_report_prompt, String.append_assoc]
      exact length_pos_left _ _ (by decide)
    · refine sContains_intro
        ("\"\"\"" ++ context ++
          "\"\"\"\n\nBased on the above information, generate a bibliography recommendation report for the following" ++
          " question or topic: \"") question
        ("\". The report should provide a detailed analysis of each recommended resource," ++
          " explaining how each source can contribute to finding answers to the research question.\n" ++
          "Focus on the relevance, reliability, and significance of each source.\n" ++
          "Ensure that the report is well-structured, informative, in-depth, and follows Markdown syntax.\n" ++
          "Use markdown tables and other formatting features when appropriate to organize and present information clearly.\n" ++
          "Include relevant facts, figures, and numbers whenever available.\n" ++
          "The report should have a minimum length of " ++ Nat.repr total_words ++ " words.\n" ++
          "You MUST write the report in the following language: " ++ language ++ ".\n" ++
          "You MUST include all relevant source urls." ++ urlDirective ++
          (if report_source = ReportSource_Web then resourceWebReferencePrompt
            else resourceDocReferencePrompt)) ?_
      simp only [PromptFamily.generate_resource_report_prompt, String.append_assoc]
    · refine sContains_intro
        ("\"\"\"" ++ context ++
          "\"\"\"\n\nBased on the above information, generate a bibliography recommendation report for the following" ++
          " question or topic: \"" ++ question ++
          "\". The report should provide a detailed analysis of each recommended resource," ++
          " explaining how each source can contribute to finding answers to the research question.\n" ++
          "Focus on the relevance, reliability, and significance of each source.\n" ++
          "Ensure that the report is well-structured, informative, in-depth, and follows Markdown syntax.\n" ++
          "Use markdown tables and other formatting features when appropriate to organize and present information clearly.\n" ++
          "Include relevant facts, figures, and numbers whenever available.\n" ++
          "The report should have a minimum length of " ++ Nat.repr total_words ++ " words.\n" ++
          "You MUST write the report in the following language: ") language
        (".\n" ++ "You MUST include all relevant source urls." ++ urlDirective ++
          (if report_source = ReportSource_Web then resourceWebReferencePrompt
            else resourceDocReferencePrompt)) ?_
      simp only [PromptFamily.generate_resource_report_prompt, String.append_assoc]
  · intro question context report_source report_format tone total_words language
    refine ⟨?_, ?_⟩
    · simp only [PromptFamily.generate_outline_report_prompt, String.append_assoc]
      exact length_pos_left _ _ (by decide)
    · refine sContains_intro
        ("\"\"\"" ++ context ++
          "\"\"\" Using the above information, generate an outline for a research report in Markdown syntax" ++
          " for the following question or topic: \"") question
        ("\". The outline should provide a well-structured framework" ++
          " for the research report, including the main sections, subsections, and key points to be covered." ++
          " The research report should be detailed, informative, in-depth, and a minimum of " ++
          Nat.repr total_words ++ " words." ++
          " Use appropriate Markdown syntax to format the outline and ensure readability." ++
          " Consider using markdown tables and other formatting features where they would enhance the presentation of information.") ?_
      simp only [PromptFamily.generate_outline_report_prompt, String.append_assoc]
  · intro query_prompt context report_source report_format tone total_words language
    refine ⟨?_, ?_⟩
    · simp only [PromptFamily.generate_custom_report_prompt, String.append_assoc]
      exact length_pos_left _ _ (by decide)
    · refine sContains_intro ("\"" ++ context ++ "\"\n\n") query_prompt "" ?_
      simp only [PromptFamily.generate_custom_report_prompt, String.append_assoc,
        String.append_empty]
  · intro current_subtopic existing_headers relevant_written_contents main_topic context
      report_format max_subsections total_words tone language today
    refine ⟨?_, ?_, ?_⟩
    · simp only [PromptFamily.generate_subtopic_report_prompt, String.append_assoc]
      exact length_pos_left _ _ (by decide)
    · refine sContains_intro ("\nContext:\n\"" ++ context ++ sub0) current_subtopic
        (" under the main topic: " ++ main_topic ++ sub1 ++ Nat.repr max_subsections ++ sub2 ++
          pyUpper report_format ++ sub3 ++ sub4 ++ sub5 ++ existing_headers ++ sub6 ++
          relevant_written_contents ++ sub7 ++ sub8 ++ sub9 ++ today ++ sub10 ++ language ++
          sub11 ++ pyUpper report_format ++ sub12 ++ Nat.repr total_words ++
          " words.\n- Use an " ++ tone.value ++ sub13) ?_
      simp only [PromptFamily.generate_subtopic_report_prompt, String.append_assoc]
    · refine sContains_intro
        ("\nContext:\n\"" ++ context ++ sub0 ++ current_subtopic ++ " under the main topic: " ++
          main_topic ++ sub1 ++ Nat.repr max_subsections ++ sub2 ++ pyUpper report_format ++
          sub3 ++ sub4 ++ sub5 ++ existing_headers ++ sub6 ++ relevant_written_contents ++
          sub7 ++ sub8 ++ sub9 ++ today ++ sub10) language
        (sub11 ++ pyUpper report_format ++ sub12 ++ Nat.repr total_words ++
          " words.\n- Use an " ++ tone.value ++ sub13) ?_
      simp only [PromptFamily.generate_subtopic_report_prompt, String.append_assoc]
  · intro question context report_source report_format tone total_words language today
    refine ⟨?_, ?_, ?_⟩
    · simp only [PromptFamily.generate_deep_research_prompt, String.append_assoc]
      exact length_pos_left _ _ (by decide)
    · refine sContains_intro (deep0 ++ context ++ deep1) question
        (deep2 ++ Nat.repr total_words ++ " words\n7. Follow " ++ report_format ++ deep3 ++
          deep4 ++ report_format ++ deep5 ++ tonePrompt tone ++ "\n- Write in " ++ language ++
          "\n\n" ++
          (if report_source = ReportSource_Web then webReferencePrompt else docReferencePrompt) ++
          deep6 ++ today ++ ".\n") ?_
      simp only [PromptFamily.generate_deep_research_prompt, String.append_assoc]
    · refine sContains_intro
        (deep0 ++ context ++ deep1 ++ question ++ deep2 ++ Nat.repr total_words ++
          " words\n7. Follow " ++ report_format ++ deep3 ++ deep4 ++ report_format ++ deep5 ++
          tonePrompt tone ++ "\n- Write in ") language
        ("\n\n" ++
          (if report_source = ReportSource_Web then webReferencePrompt else docReferencePrompt) ++
          deep6 ++ today ++ ".\n") ?_
      simp only [PromptFamily.generate_deep_research_prompt, String.append_assoc]

/-- A string containing a piece contains everything the piece contains. -/
theorem sContains_of_piece {s pat : Str} (pre piece post : Str)
    (h : s = pre ++ (piece ++ post)) (hp : sContains piece pat) : sContains s pat :=
  List.IsInfix.trans hp (sContains_intro pre piece post h)

theorem webRef_contains_url : sContains webReferencePrompt urlDirective := by decide

theorem webRef_contains_dedup : sContains webReferencePrompt dedupDirective := by decide

theorem docRef_contains_docNames : sContains docReferencePrompt docNamesDirective := by decide

theorem resourceDocRef_contains_docNames :
    sContains resourceDocReferencePrompt docNamesDirective := by decide

/-- C4 counterexample: for `report_source = "documents"` (with benign sample
arguments) `generate_resource_report_prompt` still contains the URL-hyperlink
directive, because lines 437-438 of the source append it unconditionally before the
branch-selected `reference_prompt` — refuting the claim that the documents-branch
output does NOT contain that directive. -/
theorem C4_counterexample :
    sContains (PromptFamily.generate_resource_report_prompt "Q" "C" ReportSource_Documents
        "apa" none 1000 "english") urlDirective := by
  refine sContains_intro
    ("\"\"\"" ++ "C" ++
      "\"\"\"\n\nBased on the above information, generate a bibliography recommendation report for the following" ++
      " question or topic: \"" ++ "Q" ++
      "\". The report should provide a detailed analysis of each recommended resource," ++
      " explaining how each source can contribute to finding answers to the research question.\n" ++
      "Focus on the relevance, reliability, and significance of each source.\n" ++
      "Ensure that the report is well-structured, informative, in-depth, and follows Markdown syntax.\n" ++
      "Use markdown tables and other formatting features when appropriate to organize and present information clearly.\n" ++
      "Include relevant facts, figures, and numbers whenever available.\n" ++
      "The report should have a minimum length of " ++ Nat.repr 1000 ++ " words.\n" ++
      "You MUST write the report in the following language: " ++ "english" ++ ".\n" ++
      "You MUST include all relevant source urls.") urlDirective
    (if ReportSource_Documents = ReportSource_Web then resourceWebReferencePrompt
      else resourceDocReferencePrompt) ?_
  simp only [PromptFamily.generate_resource_report_prompt, String.append_assoc]

/-- C4 (amended): for `generate_report_prompt` and `generate_deep_research_prompt`,
the web output always contains the URL-hyperlink directive and the
duplicate-forbidding directive, and the documents output always contains the
deduplicated document-name directive; at representative benign inputs the documents
output of these two generators does not contain the URL-hyperlink directive.  For
`generate_resource_report_prompt`, however, the URL-hyperlink directive is embedded
unconditionally — for every `report_source`, documents included — while its
documents branch also carries the document-name directive. -/
theorem C4_citation_directives :
    (∀ (question context report_format : Str) (total_words : Nat) (tone : Option Tone)
        (language today : Str),
        sContains (PromptFamily.generate_report_prompt question context ReportSource_Web
            report_format total_words tone language today) urlDirective ∧
        sContains (PromptFamily.generate_report_prompt question context ReportSource_Web
            report_format total_words tone language today) dedupDirective ∧
        sContains (PromptFamily.generate_report_prompt question context ReportSource_Documents
            report_format total_words tone language today) docNamesDirective) ∧
    (∀ (question context report_format : Str) (tone : Option Tone) (total_words : Nat)
        (language today : Str),
        sContains (PromptFamily.generate_deep_research_prompt question context
            ReportSource_Web report_format tone total_words language today) urlDirective ∧
        sContains (PromptFamily.generate_deep_research_prompt question context
            ReportSource_Web report_format tone total_words language today) dedupDirective ∧
        sContains (PromptFamily.generate_deep_research_prompt question context
            ReportSource_Documents report_format tone total_words language today)
          docNamesDirective) ∧
    (∀ (question context report_source report_format : Str) (tone : Option Tone)
        (total_words : Nat) (language : Str),
        sContains (PromptFamily.generate_resource_report_prompt question context report_source
            report_format tone total_words language) urlDirective) ∧
    (∀ (question context report_format : Str) (tone : Option Tone) (total_words : Nat)
        (language : Str),
        sContains (PromptFamily.generate_resource_report_prompt question context
            ReportSource_Documents report_format tone total_words language)
          docNamesDirective) ∧
    ¬ sContains (PromptFamily.generate_report_prompt "Q" "C" ReportSource_Documents "apa"
        1000 none "english" "May 1, 2025") urlDirective ∧
    ¬ sContains (PromptFamily.generate_deep_research_prompt "Q" "C" ReportSource_Documents
        "apa" none 1000 "english" "May 1, 2025") urlDirective := by
  refine ⟨?_, ?_, ?_, ?_, ?_, ?_⟩
  · intro question context report_format total_words tone language today
    refine ⟨?_, ?_, ?_⟩
    · refine sContains_of_piece
        ("\nInformation: \"" ++ context ++ rpt0 ++ question ++ rpt1 ++ Nat.repr total_words ++
          rpt2 ++ rpt3 ++ rpt4 ++ rpt5 ++ rpt6 ++ rpt7 ++ rpt8 ++ rpt9 ++ rpt10 ++
          report_format ++ rpt11 ++ rpt12 ++ report_format ++ rpt13 ++ report_format ++
          " format.\n- ") webReferencePrompt
        ("\n- " ++ tonePrompt tone ++ rpt14 ++ language ++ rpt15 ++ today ++ ".\n")
        ?_ webRef_contains_url
      simp only [PromptFamily.generate_report_prompt, String.append_assoc]
      rw [if_true]
    · refine sContains_of_piece
        ("\nInformation: \"" ++ context ++ rpt0 ++ question ++ rpt1 ++ Nat.repr total_words ++
          rpt2 ++ rpt3 ++ rpt4 ++ rpt5 ++ rpt6 ++ rpt7 ++ rpt8 ++ rpt9 ++ rpt10 ++
          report_format ++ rpt11 ++ rpt12 ++ report_format ++ rpt13 ++ report_format ++
          " format.\n- ") webReferencePrompt
        ("\n- " ++ tonePrompt tone ++ rpt14 ++ language ++ rpt15 ++ today ++ ".\n")
        ?_ webRef_contains_dedup
      simp only [PromptFamily.generate_report_prompt, String.append_assoc]
      rw [if_true]
    · refine sContains_of_piece
        ("\nInformation: \"" ++ context ++ rpt0 ++ question ++ rpt1 ++ Nat.repr total_words ++
          rpt2 ++ rpt3 ++ rpt4 ++ rpt5 ++ rpt6 ++ rpt7 ++ rpt8 ++ rpt9 ++ rpt10 ++
          report_format ++ rpt11 ++ rpt12 ++ report_format ++ rpt13 ++ report_format ++
          " format.\n- ") docReferencePrompt
        ("\n- " ++ tonePrompt tone ++ rpt14 ++ language ++ rpt15 ++ today ++ ".\n")
        ?_ docRef_contains_docNames
      simp only [PromptFamily.generate_report_prompt, String.append_assoc]
      rw [if_neg (show ¬(ReportSource_Documents = ReportSource_Web) from by decide)]
  · intro question context report_format tone total_words language today
    refine ⟨?_, ?_, ?_⟩
    · refine sContains_of_piece
        (deep0 ++ context ++ deep1 ++ question ++ deep2 ++ Nat.repr total_words ++
          " words\n7. Follow " ++ report_format ++ deep3 ++ deep4 ++ report_format ++ deep5 ++
          tonePrompt tone ++ "\n- Write in " ++ language ++ "\n\n") webReferencePrompt
        (deep6 ++ today ++ ".\n") ?_ webRef_contains_url
      simp only [PromptFamily.generate_deep_research_prompt, String.append_assoc]
      rw [if_true]
    · refine sContains_of_piece
        (deep0 ++ context ++ deep1 ++ question ++ deep2 ++ Nat.repr total_words ++
          " words\n7. Follow " ++ report_format ++ deep3 ++ deep4 ++ report_format ++ deep5 ++
          tonePrompt tone ++ "\n- Write in " ++ language ++ "\n\n") webReferencePrompt
        (deep6 ++ today ++ ".\n") ?_ webRef_contains_dedup
      simp only [PromptFamily.generate_deep_research_prompt, String.append_assoc]
      rw [if_true]
    · refine sContains_of_piece
        (deep0 ++ context ++ deep1 ++ question ++ deep2 ++ Nat.repr total_words ++
          " words\n7. Follow " ++ report_format ++ deep3 ++ deep4 ++ report_format ++ deep5 ++
          tonePrompt tone ++ "\n- Write in " ++ language ++ "\n\n") docReferencePrompt
        (deep6 ++ today ++ ".\n") ?_ docRef_contains_docNames
      simp only [PromptFamily.generate_deep_research_prompt, String.append_assoc]
      rw [if_neg (show ¬(ReportSource_Documents = ReportSource_Web) from by decide)]
  · intro question context report_source report_format tone total_words language
    refine sContains_intro
      ("\"\"\"" ++ context ++
        "\"\"\"\n\nBased on the above information, generate a bibliography recommendation report for the following" ++
        " question or topic: \"" ++ question ++
        "\". The report should provide a detailed analysis of each recommended resource," ++
        " explaining how each source can contribute to finding answers to the research question.\n" ++
        "Focus on the relevance, reliability, and significance of each source.\n" ++
        "Ensure that the report is well-structured, informative, in-depth, and follows Markdown syntax.\n" ++
        "Use markdown tables and other formatting features when appropriate to organize and present information clearly.\n" ++
        "Include relevant facts, figures, and numbers whenever available.\n" ++
        "The report should have a minimum length of " ++ Nat.repr total_words ++ " words.\n" ++
        "You MUST write the report in the following language: " ++ language ++ ".\n" ++
        "You MUST include all relevant source urls.") urlDirective
      (if report_source = ReportSource_Web then resourceWebReferencePrompt
        else resourceDocReferencePrompt) ?_
    simp only [PromptFamily.generate_resource_report_prompt, String.append_assoc]
  · intro question context report_format tone total_words language
    refine sContains_of_piece
      ("\"\"\"" ++ context ++
        "\"\"\"\n\nBased on the above information, generate a bibliography recommendation report for the following" ++
        " question or topic: \"" ++ question ++
        "\". The report should provide a detailed analysis of each recommended resource," ++
        " explaining how each source can contribute to finding answers to the research question.\n" ++
        "Focus on the relevance, reliability, and significance of each source.\n" ++
        "Ensure that the report is well-structured, informative, in-depth, and follows Markdown syntax.\n" ++
        "Use markdown tables and other formatting features when appropriate to organize and present information clearly.\n" ++
        "Include relevant facts, figures, and numbers whenever available.\n" ++
        "The report should have a minimum length of " ++ Nat.repr total_words ++ " words.\n" ++
        "You MUST write the report in the following language: " ++ language ++ ".\n" ++
        "You MUST include all relevant source urls." ++ urlDirective)
      resourceDocReferencePrompt "" ?_ resourceDocRef_contains_docNames
    simp only [PromptFamily.generate_resource_report_prompt, String.append_assoc,
      String.append_empty]
    rw [if_neg (show ¬(ReportSource_Documents = ReportSource_Web) from by decide)]
  · show ¬ urlDirective.data <:+: (PromptFamily.generate_report_prompt "Q" "C"
      ReportSource_Documents "apa" 1000 none "english" "May 1, 2025").data
    simp only [PromptFamily.generate_report_prompt]
    rw [if_neg (show ¬(ReportSource_Documents = ReportSource_Web) from by decide)]
    simp only [String.data_append, List.append_assoc]
    have hr29 : ¬ urlDirective.data <:+: (".\n" : Str).data := by decide
    have hr28 : ¬ urlDirective.data <:+: (("May 1, 2025" : Str)).data ++ ((".\n" : Str).data) :=
      not_infix_append (by decide) hr29 (by decide)
    have hr27 : ¬ urlDirective.data <:+: rpt15.data ++ ((("May 1, 2025" : Str)).data ++ ((".\n" : Str).data)) :=
      not_infix_append (by decide) hr28 (by decide)
    have hr26 : ¬ urlDirective.data <:+: (("english" : Str)).data ++ (rpt15.data ++ ((("May 1, 2025" : Str)).data ++ ((".\n" : Str).data))) :=
      not_infix_append (by decide) hr27 (by decide)
    have hr25 : ¬ urlDirective.data <:+: rpt14.data ++ ((("english" : Str)).data ++ (rpt15.data ++ ((("May 1, 2025" : Str)).data ++ ((".\n" : Str).data)))) :=
      not_infix_append (by decide) hr26 (by decide)
    have hr24 : ¬ urlDirective.data <:+: (tonePrompt none).data ++ (rpt14.data ++ ((("english" : Str)).data ++ (rpt15.data ++ ((("May 1, 2025" : Str)).data ++ ((".\n" : Str).data))))) :=
      not_infix_append (by decide) hr25 (by decide)
    have hr23 : ¬ urlDirective.data <:+: ("\n- " : Str).data ++ ((tonePrompt none).data ++ (rpt14.data ++ ((("english" : Str)).data ++ (rpt15.data ++ ((("May 1, 2025" : Str)).data ++ ((".\n" : Str).data)))))) :=
      not_infix_append (by decide) hr24 (by decide)
    have hr22 : ¬ urlDirective.data <:+: docReferencePrompt.data ++ (("\n- " : Str).data ++ ((tonePrompt none).data ++ (rpt14.data ++ ((("english" : Str)).data ++ (rpt15.data ++ ((("May 1, 2025" : Str)).data ++ ((".\n" : Str).data))))))) :=
      not_infix_append (by decide) hr23 (by decide)
    have hr21 : ¬ urlDirective.data <:+: (" format.\n- " : Str).data ++ (docReferencePrompt.data ++ (("\n- " : Str).data ++ ((tonePrompt none).data ++ (rpt14.data ++ ((("english" : Str)).data ++ (rpt15.data ++ ((("May 1, 2025" : Str)).data ++ ((".\n" : Str).data)))))))) :=
      not_infix_append (by decide) hr22 (by decide)
    have hr20 : ¬ urlDirective.data <:+: (("apa" : Str)).data ++ ((" format.\n- " : Str).data ++ (docReferencePrompt.data ++ (("\n- " : Str).data ++ ((tonePrompt none).data ++ (rpt14.data ++ ((("english" : Str)).data ++ (rpt15.data ++ ((("May 1, 2025" : Str)).data ++ ((".\n" : Str).data))))))))) :=
      not_infix_append (by decide) hr21 (by decide)
    have hr19 : ¬ urlDirective.data <:+: rpt13.data ++ ((("apa" : Str)).data ++ ((" format.\n- " : Str).data ++ (docReferencePrompt.data ++ (("\n- " : Str).data ++ ((tonePrompt none).data ++ (rpt14.data ++ ((("english" : Str)).data ++ (rpt15.data ++ ((("May 1, 2025" : Str)).data ++ ((".\n" : Str).data)))))))))) :=
      not_infix_append (by decide) hr20 (by decide)
    have hr18 : ¬ urlDirective.data <:+: (("apa" : Str)).data ++ (rpt13.data ++ ((("apa" : Str)).data ++ ((" format.\n- " : Str).data ++ (docReferencePrompt.data ++ (("\n- " : Str).data ++ ((tonePrompt none).data ++ (rpt14.data ++ ((("english" : Str)).data ++ (rpt15.data ++ ((("May 1, 2025" : Str)).data ++ ((".\n" : Str).data))))))))))) :=
      not_infix_append (by decide) hr19 (by decide)
    have hr17 : ¬ urlDirective.data <:+: rpt12.data ++ ((("apa" : Str)).data ++ (rpt13.data ++ ((("apa" : Str)).data ++ ((" format.\n- " : Str).data ++ (docReferencePrompt.data ++ (("\n- " : Str).data ++ ((tonePrompt none).data ++ (rpt14.data ++ ((("english" : Str)).data ++ (rpt15.data ++ ((("May 1, 2025" : Str)).data ++ ((".\n" : Str).data)))))))))))) :=
      not_infix_append (by decide) hr18 (by decide)
    have hr16 : ¬ urlDirective.data <:+: rpt11.data ++ (rpt12.data ++ ((("apa" : Str)).data ++ (rpt13.data ++ ((("apa" : Str)).data ++ ((" format.\n- " : Str).data ++ (docReferencePrompt.data ++ (("\n- " : Str).data ++ ((tonePrompt none).data ++ (rpt14.data ++ ((("english" : Str)).data ++ (rpt15.data ++ ((("May 1, 2025" : Str)).data ++ ((".\n" : Str).data))))))))))))) :=
      not_infix_append (by decide) hr17 (by decide)
    have hr15 : ¬ urlDirective.data <:+: (("apa" : Str)).data ++ (rpt11.data ++ (rpt12.data ++ ((("apa" : Str)).data ++ (rpt13.data ++ ((("apa" : Str)).data ++ ((" format.\n- " : Str).data ++ (docReferencePrompt.data ++ (("\n- " : Str).data ++ ((tonePrompt none).data ++ (rpt14.data ++ ((("english" : Str)).data ++ (rpt15.data ++ ((("May 1, 2025" : Str)).data ++ ((".\n" : Str).data)))))))))))))) :=
      not_infix_append (by decide) hr16 (by decide)
    have hr14 : ¬ urlDirective.data <:+: rpt10.data ++ ((("apa" : Str)).data ++ (rpt11.data ++ (rpt12.data ++ ((("apa" : Str)).data ++ (rpt13.data ++ ((("apa" : Str)).data ++ ((" format.\n- " : Str).data ++ (docReferencePrompt.data ++ (("\n- " : Str).data ++ ((tonePrompt none).data ++ (rpt14.data ++ ((("english" : Str)).data ++ (rpt15.data ++ ((("May 1, 2025" : Str)).data ++ ((".\n" : Str).data))))))))))))))) :=
      not_infix_append (by decide) hr15 (by decide)
    have hr13 : ¬ urlDirective.data <:+: rpt9.data ++ (rpt10.data ++ ((("apa" : Str)).data ++ (rpt11.data ++ (rpt12.data ++ ((("apa" : Str)).data ++ (rpt13.data ++ ((("apa" : Str)).data ++ ((" format.\n- " : Str).data ++ (docReferencePrompt.data ++ (("\n- " : Str).data ++ ((tonePrompt none).data ++ (rpt14.data ++ ((("english" : Str)).data ++ (rpt15.data ++ ((("May 1, 2025" : Str)).data ++ ((".\n" : Str).data)))))))))))))))) :=
      not_infix_append (by decide) hr14 (by decide)
    have hr12 : ¬ urlDirective.data <:+: rpt8.data ++ (rpt9.data ++ (rpt10.data ++ ((("apa" : Str)).data ++ (rpt11.data ++ (rpt12.data ++ ((("apa" : Str)).data ++ (rpt13.data ++ ((("apa" : Str)).data ++ ((" format.\n- " : Str).data ++ (docReferencePrompt.data ++ (("\n- " : Str).data ++ ((tonePrompt none).data ++ (rpt14.data ++ ((("english" : Str)).data ++ (rpt15.data ++ ((("May 1, 2025" : Str)).data ++ ((".\n" : Str).data))))))))))))))))) :=
      not_infix_append (by decide) hr13 (by decide)
    have hr11 : ¬ urlDirective.data <:+: rpt7.data ++ (rpt8.data ++ (rpt9.data ++ (rpt10.data ++ ((("apa" : Str)).data ++ (rpt11.data ++ (rpt12.data ++ ((("apa" : Str)).data ++ (rpt13.data ++ ((("apa" : Str)).data ++ ((" format.\n- " : Str).data ++ (docReferencePrompt.data ++ (("\n- " : Str).data ++ ((tonePrompt none).data ++ (rpt14.data ++ ((("english" : Str)).data ++ (rpt15.data ++ ((("May 1, 2025" : Str)).data ++ ((".\n" : Str).data)))))))))))))))))) :=
      not_infix_append (by decide) hr12 (by decide)
    have hr10 : ¬ urlDirective.data <:+: rpt6.data ++ (rpt7.data ++ (rpt8.data ++ (rpt9.data ++ (rpt10.data ++ ((("apa" : Str)).data ++ (rpt11.data ++ (rpt12.data ++ ((("apa" : Str)).data ++ (rpt13.data ++ ((("apa" : Str)).data ++ ((" format.\n- " : Str).data ++ (docReferencePrompt.data ++ (("\n- " : Str).data ++ ((tonePrompt none).data ++ (rpt14.data ++ ((("english" : Str)).data ++ (rpt15.data ++ ((("May 1, 2025" : Str)).data ++ ((".\n" : Str).data))))))))))))))))))) :=
      not_infix_append (by decide) hr11 (by decide)
    have hr9 : ¬ urlDirective.data <:+: rpt5.data ++ (rpt6.data ++ (rpt7.data ++ (rpt8.data ++ (rpt9.data ++ (rpt10.data ++ ((("apa" : Str)).data ++ (rpt11.data ++ (rpt12.data ++ ((("apa" : Str)).data ++ (rpt13.data ++ ((("apa" : Str)).data ++ ((" format.\n- " : Str).data ++ (docReferencePrompt.data ++ (("\n- " : Str).data ++ ((tonePrompt none).data ++ (rpt14.data ++ ((("english" : Str)).data ++ (rpt15.data ++ ((("May 1, 2025" : Str)).data ++ ((".\n" : Str).data)))))))))))))))))))) :=
      not_infix_append (by decide) hr10 (by decide)
    have hr8 : ¬ urlDirective.data <:+: rpt4.data ++ (rpt5.data ++ (rpt6.data ++ (rpt7.data ++ (rpt8.data ++ (rpt9.data ++ (rpt10.data ++ ((("apa" : Str)).data ++ (rpt11.data ++ (rpt12.data ++ ((("apa" : Str)).data ++ (rpt13.data ++ ((("apa" : Str)).data ++ ((" format.\n- " : Str).data ++ (docReferencePrompt.data ++ (("\n- " : Str).data ++ ((tonePrompt none).data ++ (rpt14.data ++ ((("english" : Str)).data ++ (rpt15.data ++ ((("May 1, 2025" : Str)).data ++ ((".\n" : Str).data))))))))))))))))))))) :=
      not_infix_append (by decide) hr9 (by decide)
    have hr7 : ¬ urlDirective.data <:+: rpt3.data ++ (rpt4.data ++ (rpt5.data ++ (rpt6.data ++ (rpt7.data ++ (rpt8.data ++ (rpt9.data ++ (rpt10.data ++ ((("apa" : Str)).data ++ (rpt11.data ++ (rpt12.data ++ ((("apa" : Str)).data ++ (rpt13.data ++ ((("apa" : Str)).data ++ ((" format.\n- " : Str).data ++ (docReferencePrompt.data ++ (("\n- " : Str).data ++ ((tonePrompt none).data ++ (rpt14.data ++ ((("english" : Str)).data ++ (rpt15.data ++ ((("May 1, 2025" : Str)).data ++ ((".\n" : Str).data)))))))))))))))))))))) :=
      not_infix_append (by decide) hr8 (by decide)
    have hr6 : ¬ urlDirective.data <:+: rpt2.data ++ (rpt3.data ++ (rpt4.data ++ (rpt5.data ++ (rpt6.data ++ (rpt7.data ++ (rpt8.data ++ (rpt9.data ++ (rpt10.data ++ ((("apa" : Str)).data ++ (rpt11.data ++ (rpt12.data ++ ((("apa" : Str)).data ++ (rpt13.data ++ ((("apa" : Str)).data ++ ((" format.\n- " : Str).data ++ (docReferencePrompt.data ++ (("\n- " : Str).data ++ ((tonePrompt none).data ++ (rpt14.data ++ ((("english" : Str)).data ++ (rpt15.data ++ ((("May 1, 2025" : Str)).data ++ ((".\n" : Str).data))))))))))))))))))))))) :=
      not_infix_append (by decide) hr7 (by decide)
    have hr5 : ¬ urlDirective.data <:+: (Nat.repr 1000).data ++ (rpt2.data ++ (rpt3.data ++ (rpt4.data ++ (rpt5.data ++ (rpt6.data ++ (rpt7.data ++ (rpt8.data ++ (rpt9.data ++ (rpt10.data ++ ((("apa" : Str)).data ++ (rpt11.data ++ (rpt12.data ++ ((("apa" : Str)).data ++ (rpt13.data ++ ((("apa" : Str)).data ++ ((" format.\n- " : Str).data ++ (docReferencePrompt.data ++ (("\n- " : Str).data ++ ((tonePrompt none).data ++ (rpt14.data ++ ((("english" : Str)).data ++ (rpt15.data ++ ((("May 1, 2025" : Str)).data ++ ((".\n" : Str).data)))))))))))))))))))))))) :=
      not_infix_append (by decide) hr6 (by decide)
    have hr4 : ¬ urlDirective.data <:+: rpt1.data ++ ((Nat.repr 1000).data ++ (rpt2.data ++ (rpt3.data ++ (rpt4.data ++ (rpt5.data ++ (rpt6.data ++ (rpt7.data ++ (rpt8.data ++ (rpt9.data ++ (rpt10.data ++ ((("apa" : Str)).data ++ (rpt11.data ++ (rpt12.data ++ ((("apa" : Str)).data ++ (rpt13.data ++ ((("apa" : Str)).data ++ ((" format.\n- " : Str).data ++ (docReferencePrompt.data ++ (("\n- " : Str).data ++ ((tonePrompt none).data ++ (rpt14.data ++ ((("english" : Str)).data ++ (rpt15.data ++ ((("May 1, 2025" : Str)).data ++ ((".\n" : Str).data))))))))))))))))))))))))) :=
      not_infix_append (by decide) hr5 (by decide)
    have hr3 : ¬ urlDirective.data <:+: (("Q" : Str)).data ++ (rpt1.data ++ ((Nat.repr 1000).data ++ (rpt2.data ++ (rpt3.data ++ (rpt4.data ++ (rpt5.data ++ (rpt6.data ++ (rpt7.data ++ (rpt8.data ++ (rpt9.data ++ (rpt10.data ++ ((("apa" : Str)).data ++ (rpt11.data ++ (rpt12.data ++ ((("apa" : Str)).data ++ (rpt13.data ++ ((("apa" : Str)).data ++ ((" format.\n- " : Str).data ++ (docReferencePrompt.data ++ (("\n- " : Str).data ++ ((tonePrompt none).data ++ (rpt14.data ++ ((("english" : Str)).data ++ (rpt15.data ++ ((("May 1, 2025" : Str)).data ++ ((".\n" : Str).data)))))))))))))))))))))))))) :=
      not_infix_append (by decide) hr4 (by decide)
    have hr2 : ¬ urlDirective.data <:+: rpt0.data ++ ((("Q" : Str)).data ++ (rpt1.data ++ ((Nat.repr 1000).data ++ (rpt2.data ++ (rpt3.data ++ (rpt4.data ++ (rpt5.data ++ (rpt6.data ++ (rpt7.data ++ (rpt8.data ++ (rpt9.data ++ (rpt10.data ++ ((("apa" : Str)).data ++ (rpt11.data ++ (rpt12.data ++ ((("apa" : Str)).data ++ (rpt13.data ++ ((("apa" : Str)).data ++ ((" format.\n- " : Str).data ++ (docReferencePrompt.data ++ (("\n- " : Str).data ++ ((tonePrompt none).data ++ (rpt14.data ++ ((("english" : Str)).data ++ (rpt15.data ++ ((("May 1, 2025" : Str)).data ++ ((".\n" : Str).data))))))))))))))))))))))))))) :=
      not_infix_append (by decide) hr3 (by decide)
    have hr1 : ¬ urlDirective.data <:+: (("C" : Str)).data ++ (rpt0.data ++ ((("Q" : Str)).data ++ (rpt1.data ++ ((Nat.repr 1000).data ++ (rpt2.data ++ (rpt3.data ++ (rpt4.data ++ (rpt5.data ++ (rpt6.data ++ (rpt7.data ++ (rpt8.data ++ (rpt9.data ++ (rpt10.data ++ ((("apa" : Str)).data ++ (rpt11.data ++ (rpt12.data ++ ((("apa" : Str)).data ++ (rpt13.data ++ ((("apa" : Str)).data ++ ((" format.\n- " : Str).data ++ (docReferencePrompt.data ++ (("\n- " : Str).data ++ ((tonePrompt none).data ++ (rpt14.data ++ ((("english" : Str)).data ++ (rpt15.data ++ ((("May 1, 2025" : Str)).data ++ ((".\n" : Str).data)))))))))))))))))))))))))))) :=
      not_infix_append (by decide) hr2 (by decide)
    have hr0 : ¬ urlDirective.data <:+: ("\nInformation: \"" : Str).data ++ ((("C" : Str)).data ++ (rpt0.data ++ ((("Q" : Str)).data ++ (rpt1.data ++ ((Nat.repr 1000).data ++ (rpt2.data ++ (rpt3.data ++ (rpt4.data ++ (rpt5.data ++ (rpt6.data ++ (rpt7.data ++ (rpt8.data ++ (rpt9.data ++ (rpt10.data ++ ((("apa" : Str)).data ++ (rpt11.data ++ (rpt12.data ++ ((("apa" : Str)).data ++ (rpt13.data ++ ((("apa" : Str)).data ++ ((" format.\n- " : Str).data ++ (docReferencePrompt.data ++ (("\n- " : Str).data ++ ((tonePrompt none).data ++ (rpt14.data ++ ((("english" : Str)).data ++ (rpt15.data ++ ((("May 1, 2025" : Str)).data ++ ((".\n" : Str).data))))))))))))))))))))))))))))) :=
      not_infix_append (by decide) hr1 (by decide)
    exact hr0
  · show ¬ urlDirective.data <:+: (PromptFamily.generate_deep_research_prompt "Q" "C"
      ReportSource_Documents "apa" none 1000 "english" "May 1, 2025").data
    simp only [PromptFamily.generate_deep_research_prompt]
    rw [if_neg (show ¬(ReportSource_Documents = ReportSource_Web) from by decide)]
    simp only [String.data_append, List.append_assoc]
    have hd19 : ¬ urlDirective.data <:+: (".\n" : Str).data := by decide
    have hd18 : ¬ urlDirective.data <:+: (("May 1, 2025" : Str)).data ++ ((".\n" : Str).data) :=
      not_infix_append (by decide) hd19 (by decide)
    have hd17 : ¬ urlDirective.data <:+: deep6.data ++ ((("May 1, 2025" : Str)).data ++ ((".\n" : Str).data)) :=
      not_infix_append (by decide) hd18 (by decide)
    have hd16 : ¬ urlDirective.data <:+: docReferencePrompt.data ++ (deep6.data ++ ((("May 1, 2025" : Str)).data ++ ((".\n" : Str).data))) :=
      not_infix_append (by decide) hd17 (by decide)
    have hd15 : ¬ urlDirective.data <:+: ("\n\n" : Str).data ++ (docReferencePrompt.data ++ (deep6.data ++ ((("May 1, 2025" : Str)).data ++ ((".\n" : Str).data)))) :=
      not_infix_append (by decide) hd16 (by decide)
    have hd14 : ¬ urlDirective.data <:+: (("english" : Str)).data ++ (("\n\n" : Str).data ++ (docReferencePrompt.data ++ (deep6.data ++ ((("May 1, 2025" : Str)).data ++ ((".\n" : Str).data))))) :=
      not_infix_append (by decide) hd15 (by decide)
    have hd13 : ¬ urlDirective.data <:+: ("\n- Write in " : Str).data ++ ((("english" : Str)).data ++ (("\n\n" : Str).data ++ (docReferencePrompt.data ++ (deep6.data ++ ((("May 1, 2025" : Str)).data ++ ((".\n" : Str).data)))))) :=
      not_infix_append (by decide) hd14 (by decide)
    have hd12 : ¬ urlDirective.data <:+: (tonePrompt none).data ++ (("\n- Write in " : Str).data ++ ((("english" : Str)).data ++ (("\n\n" : Str).data ++ (docReferencePrompt.data ++ (deep6.data ++ ((("May 1, 2025" : Str)).data ++ ((".\n" : Str).data))))))) :=
      not_infix_append (by decide) hd13 (by decide)
    have hd11 : ¬ urlDirective.data <:+: deep5.data ++ ((tonePrompt none).data ++ (("\n- Write in " : Str).data ++ ((("english" : Str)).data ++ (("\n\n" : Str).data ++ (docReferencePrompt.data ++ (deep6.data ++ ((("May 1, 2025" : Str)).data ++ ((".\n" : Str).data)))))))) :=
      not_infix_append (by decide) hd12 (by decide)
    have hd10 : ¬ urlDirective.data <:+: (("apa" : Str)).data ++ (deep5.data ++ ((tonePrompt none).data ++ (("\n- Write in " : Str).data ++ ((("english" : Str)).data ++ (("\n\n" : Str).data ++ (docReferencePrompt.data ++ (deep6.data ++ ((("May 1, 2025" : Str)).data ++ ((".\n" : Str).data))))))))) :=
      not_infix_append (by decide) hd11 (by decide)
    have hd9 : ¬ urlDirective.data <:+: deep4.data ++ ((("apa" : Str)).data ++ (deep5.data ++ ((tonePrompt none).data ++ (("\n- Write in " : Str).data ++ ((("english" : Str)).data ++ (("\n\n" : Str).data ++ (docReferencePrompt.data ++ (deep6.data ++ ((("May 1, 2025" : Str)).data ++ ((".\n" : Str).data)))))))))) :=
      not_infix_append (by decide) hd10 (by decide)
    have hd8 : ¬ urlDirective.data <:+: deep3.data ++ (deep4.data ++ ((("apa" : Str)).data ++ (deep5.data ++ ((tonePrompt none).data ++ (("\n- Write in " : Str).data ++ ((("english" : Str)).data ++ (("\n\n" : Str).data ++ (docReferencePrompt.data ++ (deep6.data ++ ((("May 1, 2025" : Str)).data ++ ((".\n" : Str).data))))))))))) :=
      not_infix_append (by decide) hd9 (by decide)
    have hd7 : ¬ urlDirective.data <:+: (("apa" : Str)).data ++ (deep3.data ++ (deep4.data ++ ((("apa" : Str)).data ++ (deep5.data ++ ((tonePrompt none).data ++ (("\n- Write in " : Str).data ++ ((("english" : Str)).data ++ (("\n\n" : Str).data ++ (docReferencePrompt.data ++ (deep6.data ++ ((("May 1, 2025" : Str)).data ++ ((".\n" : Str).data)))))))))))) :=
      not_infix_append (by decide) hd8 (by decide)
    have hd6 : ¬ urlDirective.data <:+: (" words\n7. Follow " : Str).data ++ ((("apa" : Str)).data ++ (deep3.data ++ (deep4.data ++ ((("apa" : Str)).data ++ (deep5.data ++ ((tonePrompt none).data ++ (("\n- Write in " : Str).data ++ ((("english" : Str)).data ++ (("\n\n" : Str).data ++ (docReferencePrompt.data ++ (deep6.data ++ ((("May 1, 2025" : Str)).data ++ ((".\n" : Str).data))))))))))))) :=
      not_infix_append (by decide) hd7 (by decide)
    have hd5 : ¬ urlDirective.data <:+: (Nat.repr 1000).data ++ ((" words\n7. Follow " : Str).data ++ ((("apa" : Str)).data ++ (deep3.data ++ (deep4.data ++ ((("apa" : Str)).data ++ (deep5.data ++ ((tonePrompt none).data ++ (("\n- Write in " : Str).data ++ ((("english" : Str)).data ++ (("\n\n" : Str).data ++ (docReferencePrompt.data ++ (deep6.data ++ ((("May 1, 2025" : Str)).data ++ ((".\n" : Str).data)))))))))))))) :=
      not_infix_append (by decide) hd6 (by decide)
    have hd4 : ¬ urlDirective.data <:+: deep2.data ++ ((Nat.repr 1000).data ++ ((" words\n7. Follow " : Str).data ++ ((("apa" : Str)).data ++ (deep3.data ++ (deep4.data ++ ((("apa" : Str)).data ++ (deep5.data ++ ((tonePrompt none).data ++ (("\n- Write in " : Str).data ++ ((("english" : Str)).data ++ (("\n\n" : Str).data ++ (docReferencePrompt.data ++ (deep6.data ++ ((("May 1, 2025" : Str)).data ++ ((".\n" : Str).data))))))))))))))) :=
      not_infix_append (by decide) hd5 (by decide)
    have hd3 : ¬ urlDirective.data <:+: (("Q" : Str)).data ++ (deep2.data ++ ((Nat.repr 1000).data ++ ((" words\n7. Follow " : Str).data ++ ((("apa" : Str)).data ++ (deep3.data ++ (deep4.data ++ ((("apa" : Str)).data ++ (deep5.data ++ ((tonePrompt none).data ++ (("\n- Write in " : Str).data ++ ((("english" : Str)).data ++ (("\n\n" : Str).data ++ (docReferencePrompt.data ++ (deep6.data ++ ((("May 1, 2025" : Str)).data ++ ((".\n" : Str).data)))))))))))))))) :=
      not_infix_append (by decide) hd4 (by decide)
    have hd2 : ¬ urlDirective.data <:+: deep1.data ++ ((("Q" : Str)).data ++ (deep2.data ++ ((Nat.repr 1000).data ++ ((" words\n7. Follow " : Str).data ++ ((("apa" : Str)).data ++ (deep3.data ++ (deep4.data ++ ((("apa" : Str)).data ++ (deep5.data ++ ((tonePrompt none).data ++ (("\n- Write in " : Str).data ++ ((("english" : Str)).data ++ (("\n\n" : Str).data ++ (docReferencePrompt.data ++ (deep6.data ++ ((("May 1, 2025" : Str)).data ++ ((".\n" : Str).data))))))))))))))))) :=
      not_infix_append (by decide) hd3 (by decide)
    have hd1 : ¬ urlDirective.data <:+: (("C" : Str)).data ++ (deep1.data ++ ((("Q" : Str)).data ++ (deep2.data ++ ((Nat.repr 1000).data ++ ((" words\n7. Follow " : Str).data ++ ((("apa" : Str)).data ++ (deep3.data ++ (deep4.data ++ ((("apa" : Str)).data ++ (deep5.data ++ ((tonePrompt none).data ++ (("\n- Write in " : Str).data ++ ((("english" : Str)).data ++ (("\n\n" : Str).data ++ (docReferencePrompt.data ++ (deep6.data ++ ((("May 1, 2025" : Str)).data ++ ((".\n" : Str).data)))))))))))))))))) :=
      not_infix_append (by decide) hd2 (by decide)
    have hd0 : ¬ urlDirective.data <:+: deep0.data ++ ((("C" : Str)).data ++ (deep1.data ++ ((("Q" : Str)).data ++ (deep2.data ++ ((Nat.repr 1000).data ++ ((" words\n7. Follow " : Str).data ++ ((("apa" : Str)).data ++ (deep3.data ++ (deep4.data ++ ((("apa" : Str)).data ++ (deep5.data ++ ((tonePrompt none).data ++ (("\n- Write in " : Str).data ++ ((("english" : Str)).data ++ (("\n\n" : Str).data ++ (docReferencePrompt.data ++ (deep6.data ++ ((("May 1, 2025" : Str)).data ++ ((".\n" : Str).data))))))))))))))))))) :=
      not_infix_append (by decide) hd1 (by decide)
    exact hd0

/-- C5 counterexample: with a `current_subtopic` that begins a new line with
`"# "`, the subtopic report prompt does contain a line beginning with a single `#`
followed by a non-`#` character — refuting the claim for arbitrary inputs. -/
theorem C5_counterexample :
    hasTopLevelHeading (PromptFamily.generate_subtopic_report_prompt
        "\n# Local Crime Rates" "[]" "[]" "Main" "ctx" "apa" 5 800 ⟨"objective"⟩ "english"
        "May 1, 2025") = true := by
  show scan ScanSt.start _ = true
  simp only [PromptFamily.generate_subtopic_report_prompt, String.data_append,
    List.append_assoc]
  rw [subScan0 ScanSt.start (by decide)]
  rw [scan_noHash ("ctx" : Str).data (by decide) ScanSt.mid (by decide)]
  rw [subScan2 (stateAfter ("ctx" : Str).data ScanSt.mid)
      (stateAfter_ne_hash ("ctx" : Str).data ScanSt.mid (by decide))]
  rfl

/-- C5 (amended): whenever none of the interpolated arguments contains a `#`
character (the numeric arguments are rendered as digits and never do), the string
returned by `generate_subtopic_report_prompt` contains no line beginning with a
single `#` followed by a non-`#` character: only `##`/`###` headings appear. -/
theorem C5_no_top_level_heading (current_subtopic existing_headers
    relevant_written_contents main_topic context report_format : Str)
    (max_subsections total_words : Nat) (tone : Tone) (language today : Str)
    (h1 : noHash current_subtopic) (h2 : noHash existing_headers)
    (h3 : noHash relevant_written_contents) (h4 : noHash main_topic) (h5 : noHash context)
    (h6 : noHash report_format) (h7 : noHash tone.value) (h8 : noHash language)
    (h9 : noHash today) :
    hasTopLevelHeading (PromptFamily.generate_subtopic_report_prompt current_subtopic
        existing_headers relevant_written_contents main_topic context report_format
        max_subsections total_words tone language today) = false := by
  show scan ScanSt.start _ = false
  simp only [PromptFamily.generate_subtopic_report_prompt, String.data_append,
    List.append_assoc]
  rw [subScan0 ScanSt.start (by decide)]
  rw [scan_noHash context.data h5 ScanSt.mid (by decide)]
  rw [subScan2 (stateAfter context.data ScanSt.mid) (stateAfter_ne_hash context.data ScanSt.mid (by decide))]
  rw [scan_noHash current_subtopic.data h1 ScanSt.mid (by decide)]
  rw [subScan4 (stateAfter current_subtopic.data ScanSt.mid) (stateAfter_ne_hash current_subtopic.data ScanSt.mid (by decide))]
  rw [scan_noHash main_topic.data h4 ScanSt.mid (by decide)]
  rw [subScan6 (stateAfter main_topic.data ScanSt.mid) (stateAfter_ne_hash main_topic.data ScanSt.mid (by decide))]
  rw [scan_noHash (Nat.repr max_subsections).data (noHash_repr max_subsections) ScanSt.mid (by decide)]
  rw [subScan8 (stateAfter (Nat.repr max_subsections).data ScanSt.mid) (stateAfter_ne_hash (Nat.repr max_subsections).data ScanSt.mid (by decide))]
  rw [scan_noHash (pyUpper report_format).data (noHash_pyUpper h6) ScanSt.mid (by decide)]
  rw [subScan10 (stateAfter (pyUpper report_format).data ScanSt.mid) (stateAfter_ne_hash (pyUpper report_format).data ScanSt.mid (by decide))]
  rw [subScan11 ScanSt.start (by decide)]
  rw [subScan12 ScanSt.start (by decide)]
  rw [scan_noHash existing_headers.data h2 ScanSt.mid (by decide)]
  rw [subScan14 (stateAfter existing_headers.data ScanSt.mid) (stateAfter_ne_hash existing_headers.data ScanSt.mid (by decide))]
  rw [scan_noHash relevant_written_contents.data h3 ScanSt.mid (by decide)]
  rw [subScan16 (stateAfter relevant_written_contents.data ScanSt.mid) (stateAfter_ne_hash relevant_written_contents.data ScanSt.mid (by decide))]
  rw [subScan17 ScanSt.start (by decide)]
  rw [subScan18 ScanSt.start (by decide)]
  rw [scan_noHash today.data h9 ScanSt.mid (by decide)]
  rw [subScan20 (stateAfter today.data ScanSt.mid) (stateAfter_ne_hash today.data ScanSt.mid (by decide))]
  rw [scan_noHash language.data h8 ScanSt.mid (by decide)]
  rw [subScan22 (stateAfter language.data ScanSt.mid) (stateAfter_ne_hash language.data ScanSt.mid (by decide))]
  rw [scan_noHash (pyUpper report_format).data (noHash_pyUpper h6) ScanSt.mid (by decide)]
  rw [subScan24 (stateAfter (pyUpper report_format).data ScanSt.mid) (stateAfter_ne_hash (pyUpper report_format).data ScanSt.mid (by decide))]
  rw [scan_noHash (Nat.repr total_words).data (noHash_repr total_words) ScanSt.mid (by decide)]
  rw [subScan26 (stateAfter (Nat.repr total_words).data ScanSt.mid) (stateAfter_ne_hash (Nat.repr total_words).data ScanSt.mid (by decide))]
  rw [scan_noHash tone.value.data h7 ScanSt.mid (by decide)]
  exact subScan28 (stateAfter tone.value.data ScanSt.mid) (stateAfter_ne_hash tone.value.data ScanSt.mid (by decide))

/-- C5 witness: concrete `#`-free arguments. -/
theorem C5_witness :
    noHash "Walkability" ∧ noHash "[\x27Demographics\x27]" ∧ noHash "[\x27Income data.\x27]" ∧
      noHash "Retail acquisition" ∧ noHash "Local market data." ∧ noHash "apa" ∧
      noHash (Tone.mk "objective").value ∧ noHash "english" ∧ noHash "May 1, 2025" ∧
      hasTopLevelHeading (PromptFamily.generate_subtopic_report_prompt "Walkability"
          "[\x27Demographics\x27]" "[\x27Income data.\x27]" "Retail acquisition"
          "Local market data." "apa" 4 700 (Tone.mk "objective") "english" "May 1, 2025")
        = false :=
  ⟨by decide, by decide, by decide, by decide, by decide, by decide, by decide, by decide,
    by decide,
    C5_no_top_level_heading "Walkability" "[\x27Demographics\x27]" "[\x27Income data.\x27]"
      "Retail acquisition" "Local market data." "apa" 4 700 (Tone.mk "objective") "english"
      "May 1, 2025" (by decide) (by decide) (by decide) (by decide) (by decide) (by decide)
      (by decide) (by decide) (by decide)⟩
